import Mathlib

/-!
GSC hardware monitor driver.

A shallow embedding of `drivers/hwmon/gsc-hwmon.c`: the channel registry built by
`gsc_hwmon_probe`, and the dispatcher callbacks `gsc_hwmon_read`,
`gsc_hwmon_read_string`, `gsc_hwmon_write` and `gsc_hwmon_is_visible`.

Conventions of the embedding.

* C integers are `Nat` / `Int`; a store into a `u8` is an explicit `% 256`.
* The register store (`regmap`) is a pair of response functions, and every
  callback returns, next to its C return value, the list of bus accesses it made.
* A callback returns `Except Fault _`: `Fault` stands for the two memory errors
  the C code can run into (indexing a per-kind array outside its bounds, and
  dereferencing a slot that `devm_kzalloc` left `NULL`).
-/

namespace GscHwmon

/-! ## Constants -/

/-- Capacity of `temp_ch` (`#define GSC_HWMON_MAX_TEMP_CH 16`). -/
def GSC_HWMON_MAX_TEMP_CH : Nat := 16

/-- Capacity of `in_ch` (`#define GSC_HWMON_MAX_IN_CH 16`). -/
def GSC_HWMON_MAX_IN_CH : Nat := 16

/-- Capacity of `fan_ch` (`#define GSC_HWMON_MAX_FAN_CH 6`). -/
def GSC_HWMON_MAX_FAN_CH : Nat := 6

/-- Modelled from the spec: the errno behind `InvalidAddress`, `InvalidKind` and
`TooManyChannels`; `EINVAL` comes from the kernel's errno headers, which are not
among the sources (its Linux value is 22). -/
def EINVAL : Int := 22

/-- Modelled from the spec: the errno behind `Unsupported`; `EOPNOTSUPP` comes from
the kernel's errno headers, which are not among the sources (its Linux value is 95). -/
def EOPNOTSUPP : Int := 95

/-- Modelled from the spec: `ENOTSUPP`, a second, kernel-internal "not supported"
errno from `linux/errno.h`, which is not among the sources (its Linux value is 524). -/
def ENOTSUPP : Int := 524

/-- Modelled from the spec: the read permission bits `S_IRUGO` of `linux/stat.h`,
which is not among the sources (octal 0444). -/
def S_IRUGO : Nat := 0o444

/-- Modelled from the spec: the owner write permission bit `S_IWUSR` of
`linux/stat.h`, which is not among the sources (octal 0200). -/
def S_IWUSR : Nat := 0o200

/-- Compile-time constants the driver takes from headers that are not among the
sources: the highest valid register address (`linux/mfd/gsc.h`), the capability
bits of `linux/hwmon.h`, and the attribute number `hwmon_fan_input`. -/
structure gsc_hwmon_consts where
  GSC_HWMON_MAX_REG : Nat
  HWMON_T_INPUT : Nat
  HWMON_T_LABEL : Nat
  HWMON_I_INPUT : Nat
  HWMON_I_LABEL : Nat
  HWMON_F_INPUT : Nat
  HWMON_F_LABEL : Nat
  hwmon_fan_input : Nat

/-! ## Data model -/

/-- Modelled from the spec: the kind of a channel descriptor. `enum gsc_hwmon_type`
is declared in `linux/platform_data/gsc_hwmon.h`, which is not among the sources;
the `u32` kind of a descriptor is represented by the `case` label of the `switch`
in `gsc_hwmon_probe` that it selects, `unrecognized raw` being a value that selects
`default`. -/
inductive gsc_hwmon_type
  | type_temperature
  | type_voltage
  | type_fan
  | unrecognized (raw : Nat)
  deriving DecidableEq

/-- Modelled from the spec: `struct gsc_hwmon_channel` of
`linux/platform_data/gsc_hwmon.h` (not among the sources): register address,
kind and label of one channel. -/
structure gsc_hwmon_channel where
  reg : Nat
  type : gsc_hwmon_type
  name : String
  deriving DecidableEq

/-- Modelled from the spec: the sensor kind a callback is asked about.
`enum hwmon_sensor_types` is declared in `linux/hwmon.h`, which is not among the
sources; `other raw` is any enumerator that selects `default` in the callbacks. -/
inductive hwmon_sensor_types
  | hwmon_temp
  | hwmon_in
  | hwmon_fan
  | other (raw : Nat)
  deriving DecidableEq

/-- The part of `struct gsc_hwmon_data` filled by the classification loop. A slot
of a per-kind array is `none` while it holds the `NULL` of `devm_kzalloc`. -/
structure gsc_hwmon_data where
  temp_ch : List (Option gsc_hwmon_channel)
  in_ch : List (Option gsc_hwmon_channel)
  fan_ch : List (Option gsc_hwmon_channel)
  temp_config : List Nat
  in_config : List Nat
  fan_config : List Nat

/-- Memory errors of the C code. -/
inductive Fault
  | out_of_bounds
  | null_deref
  deriving DecidableEq

/-- One access to the register store. -/
inductive BusOp
  | bulk_read (reg : Nat) (count : Nat)
  | bulk_write (reg : Nat) (data : List Nat)
  deriving DecidableEq

/-- What `regmap_bulk_read` hands back: its return value and the bytes it stored in
the caller's buffer, first byte first (a byte the list lacks reads as 0). -/
structure bulk_read_reply where
  ret : Int
  data : List Nat

/-- The register store collaborator (`hwmon->gsc->regmap_hwmon`). -/
structure regmap where
  bulk_read : Nat → Nat → bulk_read_reply
  bulk_write : Nat → List Nat → Int

/-- Outcome of `gsc_hwmon_read`: return value, `*val` after the call, bus accesses. -/
structure read_result where
  ret : Int
  val : Int
  bus : List BusOp
  deriving DecidableEq

/-- Outcome of `gsc_hwmon_read_string`: return value, `*buf` after the call, and the
bus accesses (the function has none in its body). -/
structure read_string_result where
  ret : Int
  buf : String
  bus : List BusOp
  deriving DecidableEq

/-- Outcome of `gsc_hwmon_write`: return value and bus accesses. -/
structure write_result where
  ret : Int
  bus : List BusOp
  deriving DecidableEq

/-! ## Dispatcher -/

/-- The expression `arr[channel]->field`: index a per-kind array with an `int` and
dereference the pointer found there. -/
def channel_at (arr : List (Option gsc_hwmon_channel)) (channel : Int) :
    Except Fault gsc_hwmon_channel :=
  if channel < 0 then .error .out_of_bounds
  else
    match arr[channel.toNat]? with
    | none => .error .out_of_bounds
    | some none => .error .null_deref
    | some (some ch) => .ok ch

/-- Contents of `u8 buf[]` after a bulk read of `sz` bytes. -/
def fill_buf (data : List Nat) (sz : Nat) : List Nat :=
  (List.range sz).map (fun i => data.getD i 0 % 256)

/-- The loop `while (sz-- > 0) *val |= (buf[sz] << (8*sz));`. -/
def assemble (buf : List Nat) : Nat → Nat → Nat
  | 0, val => val
  | sz + 1, val => assemble buf sz (val ||| (buf.getD sz 0 <<< (8 * sz)))

/-- Lines 77-81 of `gsc_hwmon_read`: the value decoded from `buf`. -/
def decode_buf (type : hwmon_sensor_types) (buf : List Nat) (sz : Nat) : Int :=
  let val : Int := (assemble buf sz 0 : Nat)
  if type = .hwmon_temp ∧ val > 0x8000 then val - 0xffff else val

/-- Lines 73-83 of `gsc_hwmon_read`: the bulk read and the decoding. -/
def read_reg (map : regmap) (type : hwmon_sensor_types) (reg : Nat) (sz : Nat)
    (val : Int) : read_result :=
  let reply := map.bulk_read reg sz
  if reply.ret ≠ 0 then
    { ret := reply.ret, val := val, bus := [.bulk_read reg sz] }
  else
    { ret := 0, val := decode_buf type (fill_buf reply.data sz) sz,
      bus := [.bulk_read reg sz] }

/-- The callback `gsc_hwmon_read`; `val` is `*val` before the call. -/
def gsc_hwmon_read (hwmon : gsc_hwmon_data) (map : regmap) (type : hwmon_sensor_types)
    (_attr : Nat) (channel : Int) (val : Int) : Except Fault read_result :=
  match type with
  | .hwmon_in =>
    if channel > GSC_HWMON_MAX_IN_CH then
      .ok { ret := -EOPNOTSUPP, val := val, bus := [] }
    else
      match channel_at hwmon.in_ch channel with
      | .error f => .error f
      | .ok ch => .ok (read_reg map type (ch.reg % 256) 3 val)
  | .hwmon_temp =>
    if channel > GSC_HWMON_MAX_TEMP_CH then
      .ok { ret := -EOPNOTSUPP, val := val, bus := [] }
    else
      match channel_at hwmon.temp_ch channel with
      | .error f => .error f
      | .ok ch => .ok (read_reg map type (ch.reg % 256) 2 val)
  | .hwmon_fan =>
    if channel > GSC_HWMON_MAX_FAN_CH then
      .ok { ret := -EOPNOTSUPP, val := val, bus := [] }
    else
      match channel_at hwmon.fan_ch channel with
      | .error f => .error f
      | .ok ch => .ok (read_reg map type (ch.reg % 256) 2 val)
  | .other _ => .ok { ret := -EOPNOTSUPP, val := val, bus := [] }

/-- The callback `gsc_hwmon_read_string`; `buf` is `*buf` before the call. -/
def gsc_hwmon_read_string (hwmon : gsc_hwmon_data) (type : hwmon_sensor_types)
    (_attr : Nat) (channel : Int) (buf : String) : Except Fault read_string_result :=
  match type with
  | .hwmon_in =>
    if channel > GSC_HWMON_MAX_IN_CH then
      .ok { ret := -EOPNOTSUPP, buf := buf, bus := [] }
    else
      match channel_at hwmon.in_ch channel with
      | .error f => .error f
      | .ok ch => .ok { ret := 0, buf := ch.name, bus := [] }
  | .hwmon_temp =>
    if channel > GSC_HWMON_MAX_TEMP_CH then
      .ok { ret := -EOPNOTSUPP, buf := buf, bus := [] }
    else
      match channel_at hwmon.temp_ch channel with
      | .error f => .error f
      | .ok ch => .ok { ret := 0, buf := ch.name, bus := [] }
  | .hwmon_fan =>
    if channel > GSC_HWMON_MAX_FAN_CH then
      .ok { ret := -EOPNOTSUPP, buf := buf, bus := [] }
    else
      match channel_at hwmon.fan_ch channel with
      | .error f => .error f
      | .ok ch => .ok { ret := 0, buf := ch.name, bus := [] }
  | .other _ => .ok { ret := -ENOTSUPP, buf := buf, bus := [] }

/-- The two bytes `buf[0] = val & 0xff; buf[1] = (val >> 8) & 0xff;` of
`gsc_hwmon_write`, `val` being a two's complement `long`. -/
def write_buf (val : Int) : List Nat :=
  [(Int.land val 0xff).toNat % 256, (Int.land (Int.shiftRight val 8) 0xff).toNat % 256]

/-- The callback `gsc_hwmon_write`. -/
def gsc_hwmon_write (hwmon : gsc_hwmon_data) (map : regmap) (type : hwmon_sensor_types)
    (_attr : Nat) (channel : Int) (val : Int) : Except Fault write_result :=
  match type with
  | .hwmon_fan =>
    if channel = GSC_HWMON_MAX_FAN_CH then
      .ok { ret := -EOPNOTSUPP, bus := [] }
    else
      match channel_at hwmon.fan_ch channel with
      | .error f => .error f
      | .ok ch =>
        .ok { ret := map.bulk_write ch.reg (write_buf val),
              bus := [.bulk_write ch.reg (write_buf val)] }
  | _ => .ok { ret := -EOPNOTSUPP, bus := [] }

/-- The callback `gsc_hwmon_is_visible`; the result is the `umode_t` mode. -/
def gsc_hwmon_is_visible (k : gsc_hwmon_consts) (_hwmon : gsc_hwmon_data)
    (type : hwmon_sensor_types) (attr : Nat) (_ch : Int) : Nat :=
  match type with
  | .hwmon_fan => if attr = k.hwmon_fan_input then S_IRUGO ||| S_IWUSR else S_IRUGO
  | .hwmon_temp => S_IRUGO
  | .hwmon_in => S_IRUGO
  | .other _ => 0

/-! ## Registry construction -/

/-- Loop state of `gsc_hwmon_probe`: the registry being filled and the three
counters `i_in`, `i_temp`, `i_fan`. -/
structure probe_state where
  hwmon : gsc_hwmon_data
  i_in : Nat
  i_temp : Nat
  i_fan : Nat

/-- The registry as `devm_kzalloc` returns it: every slot `NULL`, every mask 0. -/
def hwmon_zero : gsc_hwmon_data :=
  { temp_ch := List.replicate GSC_HWMON_MAX_TEMP_CH none
    in_ch := List.replicate GSC_HWMON_MAX_IN_CH none
    fan_ch := List.replicate GSC_HWMON_MAX_FAN_CH none
    temp_config := List.replicate (GSC_HWMON_MAX_TEMP_CH + 1) 0
    in_config := List.replicate (GSC_HWMON_MAX_IN_CH + 1) 0
    fan_config := List.replicate (GSC_HWMON_MAX_FAN_CH + 1) 0 }

/-- Loop state on entry: `i = 0, i_in = 0, i_temp = 0, i_fan = 0`. -/
def probe_init : probe_state :=
  { hwmon := hwmon_zero, i_in := 0, i_temp := 0, i_fan := 0 }

/-- One iteration of the classification loop of `gsc_hwmon_probe` (lines 245-287);
an error is the value the function returns. -/
def probe_step (k : gsc_hwmon_consts) (st : probe_state) (ch : gsc_hwmon_channel) :
    Except Int probe_state :=
  if ch.reg > k.GSC_HWMON_MAX_REG then .error (-EINVAL)
  else
    match ch.type with
    | .type_temperature =>
      if st.i_temp = GSC_HWMON_MAX_TEMP_CH then .error (-EINVAL)
      else
        .ok { st with
              hwmon := { st.hwmon with
                temp_ch := st.hwmon.temp_ch.set st.i_temp (some ch)
                temp_config := st.hwmon.temp_config.set st.i_temp
                  ((k.HWMON_T_INPUT ||| k.HWMON_T_LABEL) % 2 ^ 32) }
              i_temp := st.i_temp + 1 }
    | .type_voltage =>
      if st.i_in = GSC_HWMON_MAX_IN_CH then .error (-EINVAL)
      else
        .ok { st with
              hwmon := { st.hwmon with
                in_ch := st.hwmon.in_ch.set st.i_in (some ch)
                in_config := st.hwmon.in_config.set st.i_in
                  ((k.HWMON_I_INPUT ||| k.HWMON_I_LABEL) % 2 ^ 32) }
              i_in := st.i_in + 1 }
    | .type_fan =>
      if st.i_fan = GSC_HWMON_MAX_FAN_CH then .error (-EINVAL)
      else
        .ok { st with
              hwmon := { st.hwmon with
                fan_ch := st.hwmon.fan_ch.set st.i_fan (some ch)
                fan_config := st.hwmon.fan_config.set st.i_fan
                  ((k.HWMON_F_INPUT ||| k.HWMON_F_LABEL) % 2 ^ 32) }
              i_fan := st.i_fan + 1 }
    | .unrecognized _ => .error (-EINVAL)

/-- The classification loop of `gsc_hwmon_probe` (lines 242-288) over the
descriptors `pdata->channels[0 .. nchannels)`. -/
def probe_loop (k : gsc_hwmon_consts) :
    List gsc_hwmon_channel → probe_state → Except Int probe_state
  | [], st => .ok st
  | ch :: rest, st =>
    match probe_step k st ch with
    | .error e => .error e
    | .ok st1 => probe_loop k rest st1

/-- Lines 290-293 of `gsc_hwmon_probe`: terminate the three mask lists. -/
def terminate_config (st : probe_state) : gsc_hwmon_data :=
  { st.hwmon with
    temp_config := st.hwmon.temp_config.set st.i_temp 0
    in_config := st.hwmon.in_config.set st.i_in 0
    fan_config := st.hwmon.fan_config.set st.i_fan 0 }

/-- Registry construction, lines 236-293 of `gsc_hwmon_probe`, the allocation of
the registry having succeeded: the registry on success, the returned errno on
failure. -/
def gsc_hwmon_probe (k : gsc_hwmon_consts) (channels : List gsc_hwmon_channel) :
    Except Int gsc_hwmon_data :=
  match probe_loop k channels probe_init with
  | .error e => .error e
  | .ok st => .ok (terminate_config st)

/-- Outcome of the whole of `gsc_hwmon_probe`: its return value and the registries
it handed to `devm_hwmon_device_register_with_info`. -/
structure probe_result where
  ret : Int
  registered : List gsc_hwmon_data

/-- The function `gsc_hwmon_probe` from line 236 to its end: construction, then the
call of `devm_hwmon_device_register_with_info` (lines 308-311). `register` is the
host framework: the value `PTR_ERR_OR_ZERO` makes of its answer. -/
def gsc_hwmon_probe_device (k : gsc_hwmon_consts) (register : gsc_hwmon_data → Int)
    (channels : List gsc_hwmon_channel) : probe_result :=
  match gsc_hwmon_probe k channels with
  | .error e => { ret := e, registered := [] }
  | .ok hwmon => { ret := register hwmon, registered := [hwmon] }

/-! ## Vocabulary of the statements -/

/-- The descriptors of kind `t`, in declaration order. -/
def of_kind (t : gsc_hwmon_type) (channels : List gsc_hwmon_channel) :
    List gsc_hwmon_channel :=
  channels.filter (fun ch => decide (ch.type = t))

/-- A per-kind array of capacity `cap` whose first slots hold `l`, the others `NULL`. -/
def slots (cap : Nat) (l : List gsc_hwmon_channel) : List (Option gsc_hwmon_channel) :=
  l.map some ++ List.replicate (cap - l.length) none

/-- The kind is one of the three `case` labels of the classification `switch`. -/
def recognized (t : gsc_hwmon_type) : Prop :=
  t = .type_temperature ∨ t = .type_voltage ∨ t = .type_fan

/-- Loop invariant of the classification loop: the counters are the numbers of
descriptors classified so far, and each per-kind array holds them in order. -/
def probe_inv (st : probe_state) (T V F : List gsc_hwmon_channel) : Prop :=
  (st.i_temp = T.length ∧ T.length ≤ GSC_HWMON_MAX_TEMP_CH ∧
    st.hwmon.temp_ch = slots GSC_HWMON_MAX_TEMP_CH T) ∧
  (st.i_in = V.length ∧ V.length ≤ GSC_HWMON_MAX_IN_CH ∧
    st.hwmon.in_ch = slots GSC_HWMON_MAX_IN_CH V) ∧
  (st.i_fan = F.length ∧ F.length ≤ GSC_HWMON_MAX_FAN_CH ∧
    st.hwmon.fan_ch = slots GSC_HWMON_MAX_FAN_CH F)

/-- Modelled from the spec: the three write permission bits (`S_IWUGO` of
`linux/stat.h`, which is not among the sources; octal 0222). -/
def S_IWUGO : Nat := 0o222

/-- The value the classification loop stores in a mask entry of a populated
channel: `INPUT | LABEL` as a `u32`. -/
def mask_entry (input label : Nat) : Nat :=
  (input ||| label) % 2 ^ 32

/-- The number of entries a consumer visits that walks a mask list from index 0
until the first zero entry. -/
def mask_walk (config : List Nat) : Nat :=
  (config.takeWhile (fun m => m != 0)).length

/-- A mask list of `cap + 1` entries that holds `mask`, a nonzero value, at every
index below `n`, and 0 at the index `n`, which lies inside the list; a walk until
the first zero then visits `n` entries. -/
def mask_terminated (config : List Nat) (cap n mask : Nat) : Prop :=
  config.length = cap + 1 ∧ n < config.length ∧ mask ≠ 0 ∧
    (∀ i, i < n → config[i]? = some mask) ∧ config[n]? = some 0 ∧
    mask_walk config = n

/-- Loop invariant of the classification loop on the mask lists: below its counter
a list holds the capability mask, from the counter on it still holds the zeros of
`devm_kzalloc`. -/
def config_inv (k : gsc_hwmon_consts) (st : probe_state) : Prop :=
  (st.i_temp ≤ GSC_HWMON_MAX_TEMP_CH ∧
    st.hwmon.temp_config =
      List.replicate st.i_temp (mask_entry k.HWMON_T_INPUT k.HWMON_T_LABEL) ++
        List.replicate (GSC_HWMON_MAX_TEMP_CH + 1 - st.i_temp) 0) ∧
  (st.i_in ≤ GSC_HWMON_MAX_IN_CH ∧
    st.hwmon.in_config =
      List.replicate st.i_in (mask_entry k.HWMON_I_INPUT k.HWMON_I_LABEL) ++
        List.replicate (GSC_HWMON_MAX_IN_CH + 1 - st.i_in) 0) ∧
  (st.i_fan ≤ GSC_HWMON_MAX_FAN_CH ∧
    st.hwmon.fan_config =
      List.replicate st.i_fan (mask_entry k.HWMON_F_INPUT k.HWMON_F_LABEL) ++
        List.replicate (GSC_HWMON_MAX_FAN_CH + 1 - st.i_fan) 0)

/-- Standard sign extension of a 16-bit two's complement value. -/
def sign_extend16 (v : Nat) : Int :=
  if v < 0x8000 then (v : Int) else (v : Int) - 0x10000

/-- The two bytes the register store returns for the raw 16-bit value `v`, least
significant byte first. -/
def raw_bytes (v : Nat) : List Nat :=
  [v % 256, v / 256 % 256]

/-- The value `gsc_hwmon_read` stores for a temperature channel when the register
store returns the raw 16-bit value `v`. -/
def temp_decode (v : Nat) : Int :=
  decode_buf .hwmon_temp (fill_buf (raw_bytes v) 2) 2

/-! ## Examples -/

/-- Constants used in the examples: register addresses of one byte. -/
def consts_example : gsc_hwmon_consts :=
  { GSC_HWMON_MAX_REG := 0xff
    HWMON_T_INPUT := 1, HWMON_T_LABEL := 4
    HWMON_I_INPUT := 1, HWMON_I_LABEL := 4
    HWMON_F_INPUT := 1, HWMON_F_LABEL := 4
    hwmon_fan_input := 0 }

/-- A register store whose bulk reads succeed with the bytes `data` and whose bulk
writes succeed. -/
def store_returning (data : List Nat) : regmap :=
  { bulk_read := fun _ _ => { ret := 0, data := data }
    bulk_write := fun _ _ => 0 }

/-- A register store whose bulk reads succeed with the bytes `data` and whose bulk
writes fail with `err`. -/
def store_write_failing (data : List Nat) (err : Int) : regmap :=
  { bulk_read := fun _ _ => { ret := 0, data := data }
    bulk_write := fun _ _ => err }

/-- A register store whose every access fails with `err`. -/
def store_failing (err : Int) : regmap :=
  { bulk_read := fun _ _ => { ret := err, data := [] }
    bulk_write := fun _ _ => err }

/-- Descriptors used in the examples: two temperature, one fan and one voltage
channel. -/
def channels_example : List gsc_hwmon_channel :=
  [⟨0x01, .type_temperature, "board"⟩, ⟨0x2c, .type_fan, "fan0"⟩,
   ⟨0x02, .type_voltage, "vdd_3p3"⟩, ⟨0x06, .type_temperature, "cpu"⟩]

/-- The registry that construction builds from `channels_example`. -/
def registry_example : gsc_hwmon_data :=
  { temp_ch := slots 16 [⟨0x01, .type_temperature, "board"⟩, ⟨0x06, .type_temperature, "cpu"⟩]
    in_ch := slots 16 [⟨0x02, .type_voltage, "vdd_3p3"⟩]
    fan_ch := slots 6 [⟨0x2c, .type_fan, "fan0"⟩]
    temp_config := [5, 5] ++ List.replicate 15 0
    in_config := [5] ++ List.replicate 16 0
    fan_config := [5] ++ List.replicate 6 0 }

/-! ## Lemmas on per-kind arrays -/

theorem slots_length (cap : Nat) (l : List gsc_hwmon_channel) (h : l.length ≤ cap) :
    (slots cap l).length = cap := by
  simp [slots]; omega

theorem slots_set (cap : Nat) (l : List gsc_hwmon_channel) (ch : gsc_hwmon_channel)
    (h : l.length < cap) :
    (slots cap l).set l.length (some ch) = slots cap (l ++ [ch]) := by
  unfold slots
  induction l generalizing cap with
  | nil =>
    obtain ⟨c, rfl⟩ : ∃ c, cap = c + 1 := ⟨cap - 1, by simp at h; omega⟩
    simp [List.replicate_succ]
  | cons a l ih =>
    obtain ⟨c, rfl⟩ : ∃ c, cap = c + 1 := ⟨cap - 1, by simp at h; omega⟩
    have h1 : l.length < c := by simp at h; omega
    have := ih c h1
    simpa using this

theorem slots_getElem (cap : Nat) (l : List gsc_hwmon_channel) (i : Nat) :
    (slots cap l)[i]? =
      if i < l.length then l[i]?.map some
      else if i < cap then some none else none := by
  unfold slots
  by_cases h : i < l.length
  · rw [List.getElem?_append_left (by simpa using h)]
    simp [h]
  · rw [List.getElem?_append_right (by simpa using h)]
    simp only [h, if_false, List.length_map]
    by_cases h2 : i < cap
    · simp only [h2, if_true]
      rw [List.getElem?_replicate]
      simp; omega
    · simp only [h2, if_false]
      rw [List.getElem?_replicate]
      simp; omega

theorem channel_at_slots_ok (cap : Nat) (l : List gsc_hwmon_channel) (i : Nat)
    (ch : gsc_hwmon_channel) (h : l[i]? = some ch) :
    channel_at (slots cap l) (i : Int) = .ok ch := by
  have hi : i < l.length := by
    by_contra hc
    rw [List.getElem?_eq_none (by omega)] at h
    cases h
  unfold channel_at
  have h0 : ¬ ((i : Int) < 0) := by omega
  simp only [h0, if_false, Int.toNat_ofNat, slots_getElem, hi, if_true, h, Option.map_some']

theorem channel_at_slots_null (cap : Nat) (l : List gsc_hwmon_channel) (i : Nat)
    (h1 : l.length ≤ i) (h2 : i < cap) :
    channel_at (slots cap l) (i : Int) = .error .null_deref := by
  unfold channel_at
  have h0 : ¬ ((i : Int) < 0) := by omega
  have h3 : ¬ (i < l.length) := by omega
  simp only [h0, if_false, Int.toNat_ofNat, slots_getElem, h3, h2, if_true]

/-! ## Lemmas on the classification loop -/

theorem of_kind_cons (t : gsc_hwmon_type) (ch : gsc_hwmon_channel)
    (rest : List gsc_hwmon_channel) :
    of_kind t (ch :: rest) = of_kind t [ch] ++ of_kind t rest := by
  unfold of_kind
  by_cases h : ch.type = t <;> simp [List.filter_cons, h]

theorem probe_inv_init : probe_inv probe_init [] [] [] := by
  simp [probe_inv, probe_init, hwmon_zero, slots]

theorem probe_step_ok (k : gsc_hwmon_consts) (st st1 : probe_state)
    (ch : gsc_hwmon_channel) (T V F : List gsc_hwmon_channel)
    (hinv : probe_inv st T V F) (h : probe_step k st ch = .ok st1) :
    ch.reg ≤ k.GSC_HWMON_MAX_REG ∧ recognized ch.type ∧
      probe_inv st1 (T ++ of_kind .type_temperature [ch])
        (V ++ of_kind .type_voltage [ch]) (F ++ of_kind .type_fan [ch]) := by
  obtain ⟨⟨hT1, hT2, hT3⟩, ⟨hV1, hV2, hV3⟩, ⟨hF1, hF2, hF3⟩⟩ := hinv
  unfold probe_step at h
  by_cases hreg : ch.reg > k.GSC_HWMON_MAX_REG
  · simp [hreg] at h
  · simp only [hreg, if_false] at h
    refine ⟨by omega, ?_⟩
    cases hty : ch.type with
    | type_temperature =>
      simp only [hty] at h
      by_cases hfull : st.i_temp = GSC_HWMON_MAX_TEMP_CH
      · simp [hfull] at h
      · simp only [hfull, if_false, Except.ok.injEq] at h
        subst h
        have hlt : T.length < GSC_HWMON_MAX_TEMP_CH := by omega
        refine ⟨Or.inl rfl, ?_⟩
        simp only [probe_inv, of_kind, hty, List.filter_cons, List.filter_nil]
        simp [hT1, hT3, slots_set _ _ _ hlt, hV1, hV2, hV3, hF1, hF2, hF3]
        omega
    | type_voltage =>
      simp only [hty] at h
      by_cases hfull : st.i_in = GSC_HWMON_MAX_IN_CH
      · simp [hfull] at h
      · simp only [hfull, if_false, Except.ok.injEq] at h
        subst h
        have hlt : V.length < GSC_HWMON_MAX_IN_CH := by omega
        refine ⟨Or.inr (Or.inl rfl), ?_⟩
        simp only [probe_inv, of_kind, hty, List.filter_cons, List.filter_nil]
        simp [hV1, hV3, slots_set _ _ _ hlt, hT1, hT2, hT3, hF1, hF2, hF3]
        omega
    | type_fan =>
      simp only [hty] at h
      by_cases hfull : st.i_fan = GSC_HWMON_MAX_FAN_CH
      · simp [hfull] at h
      · simp only [hfull, if_false, Except.ok.injEq] at h
        subst h
        have hlt : F.length < GSC_HWMON_MAX_FAN_CH := by omega
        refine ⟨Or.inr (Or.inr rfl), ?_⟩
        simp only [probe_inv, of_kind, hty, List.filter_cons, List.filter_nil]
        simp [hF1, hF3, slots_set _ _ _ hlt, hT1, hT2, hT3, hV1, hV2, hV3]
        omega
    | unrecognized raw =>
      simp [hty] at h

theorem probe_loop_ok (k : gsc_hwmon_consts) (chs : List gsc_hwmon_channel) :
    ∀ (st st1 : probe_state) (T V F : List gsc_hwmon_channel),
      probe_inv st T V F → probe_loop k chs st = .ok st1 →
      (∀ ch ∈ chs, ch.reg ≤ k.GSC_HWMON_MAX_REG ∧ recognized ch.type) ∧
        probe_inv st1 (T ++ of_kind .type_temperature chs)
          (V ++ of_kind .type_voltage chs) (F ++ of_kind .type_fan chs) := by
  induction chs with
  | nil =>
    intro st st1 T V F hinv h
    simp only [probe_loop, Except.ok.injEq] at h
    subst h
    simpa [of_kind] using hinv
  | cons ch rest ih =>
    intro st st1 T V F hinv h
    simp only [probe_loop] at h
    cases hstep : probe_step k st ch with
    | error e => simp [hstep] at h
    | ok st2 =>
      simp only [hstep] at h
      obtain ⟨hreg, hrec, hinv2⟩ := probe_step_ok k st st2 ch T V F hinv hstep
      obtain ⟨hall, hinv1⟩ := ih st2 st1 _ _ _ hinv2 h
      constructor
      · intro c hc
        rcases List.mem_cons.mp hc with rfl | hc
        · exact ⟨hreg, hrec⟩
        · exact hall c hc
      · rw [of_kind_cons .type_temperature, of_kind_cons .type_voltage,
          of_kind_cons .type_fan]
        simpa [List.append_assoc] using hinv1

theorem of_kind_single_length (t : gsc_hwmon_type) (ch : gsc_hwmon_channel) :
    (of_kind t [ch]).length = if ch.type = t then 1 else 0 := by
  unfold of_kind
  by_cases h : ch.type = t <;> simp [List.filter_cons, h]

theorem probe_step_succeeds (k : gsc_hwmon_consts) (st : probe_state)
    (ch : gsc_hwmon_channel) (T V F : List gsc_hwmon_channel)
    (hinv : probe_inv st T V F) (hreg : ch.reg ≤ k.GSC_HWMON_MAX_REG)
    (hrec : recognized ch.type)
    (hT : (T ++ of_kind .type_temperature [ch]).length ≤ GSC_HWMON_MAX_TEMP_CH)
    (hV : (V ++ of_kind .type_voltage [ch]).length ≤ GSC_HWMON_MAX_IN_CH)
    (hF : (F ++ of_kind .type_fan [ch]).length ≤ GSC_HWMON_MAX_FAN_CH) :
    ∃ st1, probe_step k st ch = .ok st1 := by
  obtain ⟨⟨hT1, -, -⟩, ⟨hV1, -, -⟩, ⟨hF1, -, -⟩⟩ := hinv
  have hreg2 : ¬ ch.reg > k.GSC_HWMON_MAX_REG := by omega
  rw [List.length_append, of_kind_single_length] at hT hV hF
  unfold probe_step
  simp only [hreg2, if_false]
  rcases hrec with hty | hty | hty
  · simp only [hty, if_true] at hT
    have : ¬ st.i_temp = GSC_HWMON_MAX_TEMP_CH := by omega
    simp [hty, this]
  · simp only [hty, if_true] at hV
    have : ¬ st.i_in = GSC_HWMON_MAX_IN_CH := by omega
    simp [hty, this]
  · simp only [hty, if_true] at hF
    have : ¬ st.i_fan = GSC_HWMON_MAX_FAN_CH := by omega
    simp [hty, this]

theorem probe_loop_succeeds (k : gsc_hwmon_consts) (chs : List gsc_hwmon_channel) :
    ∀ (st : probe_state) (T V F : List gsc_hwmon_channel),
      probe_inv st T V F →
      (∀ ch ∈ chs, ch.reg ≤ k.GSC_HWMON_MAX_REG ∧ recognized ch.type) →
      (T ++ of_kind .type_temperature chs).length ≤ GSC_HWMON_MAX_TEMP_CH →
      (V ++ of_kind .type_voltage chs).length ≤ GSC_HWMON_MAX_IN_CH →
      (F ++ of_kind .type_fan chs).length ≤ GSC_HWMON_MAX_FAN_CH →
      ∃ st1, probe_loop k chs st = .ok st1 := by
  induction chs with
  | nil =>
    intro st T V F _ _ _ _ _
    exact ⟨st, rfl⟩
  | cons ch rest ih =>
    intro st T V F hinv hall hT hV hF
    rw [of_kind_cons, ← List.append_assoc] at hT hV hF
    have hT0 := hT
    have hV0 := hV
    have hF0 := hF
    rw [List.length_append] at hT0 hV0 hF0
    obtain ⟨hreg, hrec⟩ := hall ch (List.mem_cons_self _ _)
    obtain ⟨st2, hstep⟩ := probe_step_succeeds k st ch T V F hinv hreg hrec
      (by omega) (by omega) (by omega)
    obtain ⟨-, -, hinv2⟩ := probe_step_ok k st st2 ch T V F hinv hstep
    obtain ⟨st1, hloop⟩ := ih st2 _ _ _ hinv2
      (fun c hc => hall c (List.mem_cons_of_mem _ hc)) hT hV hF
    exact ⟨st1, by simp only [probe_loop, hstep, hloop]⟩

/-- A successful construction leaves, in every per-kind array, the descriptors of
that kind in declaration order, and has checked every descriptor. -/
theorem gsc_hwmon_probe_ok (k : gsc_hwmon_consts) (channels : List gsc_hwmon_channel)
    (hwmon : gsc_hwmon_data) (h : gsc_hwmon_probe k channels = .ok hwmon) :
    (∀ ch ∈ channels, ch.reg ≤ k.GSC_HWMON_MAX_REG ∧ recognized ch.type) ∧
      ((of_kind .type_temperature channels).length ≤ GSC_HWMON_MAX_TEMP_CH ∧
        hwmon.temp_ch = slots GSC_HWMON_MAX_TEMP_CH (of_kind .type_temperature channels)) ∧
      ((of_kind .type_voltage channels).length ≤ GSC_HWMON_MAX_IN_CH ∧
        hwmon.in_ch = slots GSC_HWMON_MAX_IN_CH (of_kind .type_voltage channels)) ∧
      ((of_kind .type_fan channels).length ≤ GSC_HWMON_MAX_FAN_CH ∧
        hwmon.fan_ch = slots GSC_HWMON_MAX_FAN_CH (of_kind .type_fan channels)) := by
  unfold gsc_hwmon_probe at h
  cases hloop : probe_loop k channels probe_init with
  | error e => simp [hloop] at h
  | ok st =>
    simp only [hloop, Except.ok.injEq] at h
    subst h
    obtain ⟨hall, ⟨-, hT2, hT3⟩, ⟨-, hV2, hV3⟩, ⟨-, hF2, hF3⟩⟩ :=
      probe_loop_ok k channels probe_init st [] [] [] probe_inv_init hloop
    simp only [List.nil_append] at hT2 hT3 hV2 hV3 hF2 hF3
    exact ⟨hall, ⟨hT2, hT3⟩, ⟨hV2, hV3⟩, ⟨hF2, hF3⟩⟩

/-! ## Lemmas on the register codec -/

theorem shiftLeft_or_eq_add (a b n : Nat) (h : b < 2 ^ n) :
    (a <<< n) ||| b = a * 2 ^ n + b := by
  rw [Nat.shiftLeft_eq, Nat.mul_comm, Nat.mul_add_lt_is_or h]

theorem assemble_two (b0 b1 : Nat) (h0 : b0 < 256) :
    assemble [b0, b1] 2 0 = b0 + 256 * b1 := by
  have e : assemble [b0, b1] 2 0 = (b1 <<< 8) ||| b0 := by
    simp [assemble]
  rw [e, shiftLeft_or_eq_add b1 b0 8 (by omega)]
  omega

theorem assemble_three (b0 b1 b2 : Nat) (h0 : b0 < 256) (h1 : b1 < 256) :
    assemble [b0, b1, b2] 3 0 = b0 + 256 * b1 + 65536 * b2 := by
  have e : assemble [b0, b1, b2] 3 0 = ((b2 <<< 16) ||| (b1 <<< 8)) ||| b0 := by
    simp [assemble]
  have e1 : (b2 <<< 16) ||| (b1 <<< 8) = (b2 * 256 + b1) <<< 8 := by
    rw [shiftLeft_or_eq_add b2 (b1 <<< 8) 16 (by rw [Nat.shiftLeft_eq]; omega),
      Nat.shiftLeft_eq, Nat.shiftLeft_eq]
    omega
  rw [e, e1, shiftLeft_or_eq_add _ b0 8 (by omega)]
  omega

theorem fill_buf_two (b0 b1 : Nat) (h0 : b0 < 256) (h1 : b1 < 256) :
    fill_buf [b0, b1] 2 = [b0, b1] := by
  simp [fill_buf, List.range_succ, Nat.mod_eq_of_lt h0, Nat.mod_eq_of_lt h1]

theorem fill_buf_three (b0 b1 b2 : Nat) (h0 : b0 < 256) (h1 : b1 < 256) (h2 : b2 < 256) :
    fill_buf [b0, b1, b2] 3 = [b0, b1, b2] := by
  simp [fill_buf, List.range_succ, Nat.mod_eq_of_lt h0, Nat.mod_eq_of_lt h1,
    Nat.mod_eq_of_lt h2]

theorem ldiff_255 (m : Nat) : Nat.ldiff 255 m = 255 - m % 256 := by
  apply Nat.eq_of_testBit_eq
  intro i
  have h : m % 2 ^ 8 < 2 ^ 8 := Nat.mod_lt _ (by norm_num)
  have e : 255 - m % 256 = 2 ^ 8 - (m % 2 ^ 8 + 1) := by norm_num; omega
  rw [e, Nat.testBit_two_pow_sub_succ h, Nat.testBit_ldiff, Nat.testBit_mod_two_pow,
    show (255 : Nat) = 2 ^ 8 - 1 from rfl, Nat.testBit_two_pow_sub_one]
  cases decide (i < 8) <;> simp

/-- On a two's complement integer, `v & 0xff` is `v mod 256`. -/
theorem land_255 (v : Int) : Int.land v 0xff = v % 256 := by
  cases v with
  | ofNat n =>
    show ((n &&& 255 : Nat) : Int) = _
    rw [show (255 : Nat) = 2 ^ 8 - 1 from rfl, Nat.and_pow_two_sub_one_eq_mod]
    rfl
  | negSucc m =>
    show ((Nat.ldiff 255 m : Nat) : Int) = _
    rw [ldiff_255, Int.negSucc_emod m (by norm_num)]
    omega

theorem write_buf_eq (val : Int) :
    write_buf val = [(val % 256).toNat, (val / 256 % 256).toNat] := by
  have e : Int.shiftRight val 8 = val / 256 := by
    have := Int.shiftRight_eq_div_pow val 8
    simpa using this
  unfold write_buf
  rw [e, land_255, land_255]
  have h0 : (val % 256).toNat < 256 := by omega
  have h1 : (val / 256 % 256).toNat < 256 := by omega
  rw [Nat.mod_eq_of_lt h0, Nat.mod_eq_of_lt h1]

/-! ## Reading and writing configured channels -/

theorem read_reg_eq (map : regmap) (type : hwmon_sensor_types) (reg sz : Nat) (val : Int) :
    read_reg map type reg sz val =
      { ret := (map.bulk_read reg sz).ret
        val := if (map.bulk_read reg sz).ret = 0 then
            decode_buf type (fill_buf (map.bulk_read reg sz).data sz) sz
          else val
        bus := [.bulk_read reg sz] } := by
  unfold read_reg
  by_cases h : (map.bulk_read reg sz).ret = 0 <;> simp [h]

/-- C1: on a successfully constructed registry, reading channel `i` of kind K, with
`i` below the number of descriptors of kind K, issues exactly one bulk read, at the
address of the `i`-th descriptor of kind K in declaration order, of 3 bytes for
voltage and 2 bytes for temperature and fan; the call returns the store's result
and, when that is 0, the value decoded from the bytes read. Register addresses fit
the one-byte `reg` of the function (`GSC_HWMON_MAX_REG ≤ 0xff`). -/
theorem read_configured_channel (k : gsc_hwmon_consts)
    (channels : List gsc_hwmon_channel) (hwmon : gsc_hwmon_data) (map : regmap)
    (type : hwmon_sensor_types) (kind : gsc_hwmon_type) (sz attr i : Nat) (val : Int)
    (hmax : k.GSC_HWMON_MAX_REG ≤ 0xff)
    (hprobe : gsc_hwmon_probe k channels = .ok hwmon)
    (hkind : (type, kind, sz) ∈
      [(hwmon_sensor_types.hwmon_temp, gsc_hwmon_type.type_temperature, 2),
       (hwmon_sensor_types.hwmon_in, gsc_hwmon_type.type_voltage, 3),
       (hwmon_sensor_types.hwmon_fan, gsc_hwmon_type.type_fan, 2)])
    (hi : i < (of_kind kind channels).length) :
    gsc_hwmon_read hwmon map type attr (i : Int) val =
      .ok { ret := (map.bulk_read (of_kind kind channels)[i].reg sz).ret
            val :=
              if (map.bulk_read (of_kind kind channels)[i].reg sz).ret = 0 then
                decode_buf type
                  (fill_buf (map.bulk_read (of_kind kind channels)[i].reg sz).data sz) sz
              else val
            bus := [.bulk_read (of_kind kind channels)[i].reg sz] } := by
  obtain ⟨hall, ⟨hT, hTs⟩, ⟨hV, hVs⟩, ⟨hF, hFs⟩⟩ := gsc_hwmon_probe_ok k channels hwmon hprobe
  have hmem : (of_kind kind channels)[i] ∈ channels :=
    (List.mem_filter.mp (List.getElem_mem hi)).1
  have hreg : (of_kind kind channels)[i].reg % 256 = (of_kind kind channels)[i].reg :=
    Nat.mod_eq_of_lt (by have := (hall _ hmem).1; omega)
  have hget : (of_kind kind channels)[i]? = some (of_kind kind channels)[i] :=
    List.getElem?_eq_getElem hi
  simp only [List.mem_cons, Prod.mk.injEq, List.mem_singleton, List.not_mem_nil,
    or_false] at hkind
  rcases hkind with ⟨rfl, rfl, rfl⟩ | ⟨rfl, rfl, rfl⟩ | ⟨rfl, rfl, rfl⟩
  · have hle : ¬ ((i : Int) > (GSC_HWMON_MAX_TEMP_CH : Nat)) := by omega
    simp only [gsc_hwmon_read, hle, if_false, hTs,
      channel_at_slots_ok _ _ _ _ hget, hreg, read_reg_eq]
  · have hle : ¬ ((i : Int) > (GSC_HWMON_MAX_IN_CH : Nat)) := by omega
    simp only [gsc_hwmon_read, hle, if_false, hVs,
      channel_at_slots_ok _ _ _ _ hget, hreg, read_reg_eq]
  · have hle : ¬ ((i : Int) > (GSC_HWMON_MAX_FAN_CH : Nat)) := by omega
    simp only [gsc_hwmon_read, hle, if_false, hFs,
      channel_at_slots_ok _ _ _ _ hget, hreg, read_reg_eq]

/-- C1, the scenario of the specification: the single descriptor
`board` (address `0x01`, temperature) gives a registry on which reading temperature
channel 0 reads 2 bytes at `0x01`, and the bytes `[0x05, 0x00]` decode to 5. -/
theorem read_configured_channel_witness :
    ∃ hwmon, gsc_hwmon_probe consts_example [⟨0x01, .type_temperature, "board"⟩] = .ok hwmon ∧
      gsc_hwmon_read hwmon (store_returning [0x05, 0x00]) .hwmon_temp 0 0 0 =
        .ok { ret := 0, val := 5, bus := [.bulk_read 0x01 2] } := by
  refine ⟨_, rfl, ?_⟩
  have h := read_configured_channel consts_example [⟨0x01, .type_temperature, "board"⟩] _
    (store_returning [0x05, 0x00]) .hwmon_temp .type_temperature 2 0 0 0
    (by decide) rfl (by simp) (by decide)
  simpa [store_returning, of_kind, decode_buf, fill_buf, assemble, List.range_succ] using h

/-- C2: for a descriptor list whose addresses are all at most `GSC_HWMON_MAX_REG`,
whose kinds are all recognized, and which has at most 16 temperature, 16 voltage
and 6 fan entries, the classification loop succeeds, construction succeeds, each
counter ends at the number of input descriptors of its kind, and each per-kind
array holds exactly the descriptors of its kind, in input order, followed by
untouched (`NULL`) slots up to its capacity. -/
theorem probe_classifies (k : gsc_hwmon_consts) (channels : List gsc_hwmon_channel)
    (hvalid : ∀ ch ∈ channels, ch.reg ≤ k.GSC_HWMON_MAX_REG ∧ recognized ch.type)
    (hT : (of_kind .type_temperature channels).length ≤ 16)
    (hV : (of_kind .type_voltage channels).length ≤ 16)
    (hF : (of_kind .type_fan channels).length ≤ 6) :
    ∃ st, probe_loop k channels probe_init = .ok st ∧
      gsc_hwmon_probe k channels = .ok (terminate_config st) ∧
      st.i_temp = (of_kind .type_temperature channels).length ∧
      st.i_in = (of_kind .type_voltage channels).length ∧
      st.i_fan = (of_kind .type_fan channels).length ∧
      (terminate_config st).temp_ch =
        (of_kind .type_temperature channels).map some ++
          List.replicate (16 - (of_kind .type_temperature channels).length) none ∧
      (terminate_config st).in_ch =
        (of_kind .type_voltage channels).map some ++
          List.replicate (16 - (of_kind .type_voltage channels).length) none ∧
      (terminate_config st).fan_ch =
        (of_kind .type_fan channels).map some ++
          List.replicate (6 - (of_kind .type_fan channels).length) none := by
  obtain ⟨st, hloop⟩ := probe_loop_succeeds k channels probe_init [] [] []
    probe_inv_init hvalid (by simpa using hT) (by simpa using hV) (by simpa using hF)
  obtain ⟨-, ⟨hT1, -, hT3⟩, ⟨hV1, -, hV3⟩, ⟨hF1, -, hF3⟩⟩ :=
    probe_loop_ok k channels probe_init st [] [] [] probe_inv_init hloop
  simp only [List.nil_append] at hT1 hT3 hV1 hV3 hF1 hF3
  refine ⟨st, hloop, ?_, hT1, hV1, hF1, ?_, ?_, ?_⟩
  · simp only [gsc_hwmon_probe, hloop]
  · simpa [terminate_config, slots, GSC_HWMON_MAX_TEMP_CH] using hT3
  · simpa [terminate_config, slots, GSC_HWMON_MAX_IN_CH] using hV3
  · simpa [terminate_config, slots, GSC_HWMON_MAX_FAN_CH] using hF3

/-- C2 at a list of one temperature, one fan, one voltage and a second temperature
descriptor: the premises hold there and the conclusion follows. -/
theorem probe_classifies_witness :
    ∃ st, probe_loop consts_example
        [⟨0x01, .type_temperature, "board"⟩, ⟨0x2c, .type_fan, "fan0"⟩,
         ⟨0x02, .type_voltage, "vdd_3p3"⟩, ⟨0x06, .type_temperature, "cpu"⟩]
        probe_init = .ok st ∧
      st.i_temp = 2 ∧ st.i_in = 1 ∧ st.i_fan = 1 ∧
      (terminate_config st).temp_ch =
        [some ⟨0x01, .type_temperature, "board"⟩, some ⟨0x06, .type_temperature, "cpu"⟩] ++
          List.replicate 14 none := by
  obtain ⟨st, h1, -, h3, h4, h5, h6, -, -⟩ := probe_classifies consts_example
    [⟨0x01, .type_temperature, "board"⟩, ⟨0x2c, .type_fan, "fan0"⟩,
     ⟨0x02, .type_voltage, "vdd_3p3"⟩, ⟨0x06, .type_temperature, "cpu"⟩]
    (by simp [recognized, consts_example]) (by decide) (by decide) (by decide)
  exact ⟨st, h1, h3, h4, h5, h6⟩

theorem probe_example :
    gsc_hwmon_probe consts_example channels_example = .ok registry_example := by
  rfl

/-- C3: when a temperature read reaches the register store and the store returns
the two bytes `b0, b1`, the call returns 0 after exactly that one bulk read and
stores `v = b0 + 256 * b1` if `v ≤ 0x8000`, and `v - 0xFFFF` if `v > 0x8000`. -/
theorem read_temperature_decode (hwmon : gsc_hwmon_data) (map : regmap) (attr : Nat)
    (channel val : Int) (ch : gsc_hwmon_channel) (b0 b1 : Nat)
    (hcap : channel ≤ 16)
    (hslot : channel_at hwmon.temp_ch channel = .ok ch)
    (hret : (map.bulk_read (ch.reg % 256) 2).ret = 0)
    (hdata : (map.bulk_read (ch.reg % 256) 2).data = [b0, b1])
    (h0 : b0 < 256) (h1 : b1 < 256) :
    gsc_hwmon_read hwmon map .hwmon_temp attr channel val =
      .ok { ret := 0
            val := if b0 + 256 * b1 ≤ 0x8000 then ((b0 + 256 * b1 : Nat) : Int)
                   else ((b0 + 256 * b1 : Nat) : Int) - 0xFFFF
            bus := [.bulk_read (ch.reg % 256) 2] } := by
  have hle : ¬ (channel > (GSC_HWMON_MAX_TEMP_CH : Nat)) := by
    simp only [GSC_HWMON_MAX_TEMP_CH]; omega
  simp only [gsc_hwmon_read, hle, if_false, hslot, read_reg_eq, hret, if_true, hdata,
    fill_buf_two b0 b1 h0 h1, decode_buf, assemble_two b0 b1 h0, true_and]
  by_cases hv : b0 + 256 * b1 ≤ 0x8000
  · have : ¬ (((b0 + 256 * b1 : Nat) : Int) > 0x8000) := by omega
    simp only [this, hv, if_true, if_false]
  · have : (((b0 + 256 * b1 : Nat) : Int) > 0x8000) := by omega
    simp only [this, hv, if_true, if_false]

/-- C3 at raw `0x7FFF` (bytes `[0xFF, 0x7F]`), which decodes to 32767, and at raw
`0x8000` (bytes `[0x00, 0x80]`), which decodes to 32768 without correction. -/
theorem read_temperature_decode_witness :
    gsc_hwmon_read registry_example (store_returning [0xFF, 0x7F]) .hwmon_temp 0 1 0 =
        .ok { ret := 0, val := 32767, bus := [.bulk_read 0x06 2] } ∧
      gsc_hwmon_read registry_example (store_returning [0x00, 0x80]) .hwmon_temp 0 1 0 =
        .ok { ret := 0, val := 32768, bus := [.bulk_read 0x06 2] } := by
  constructor
  · have h := read_temperature_decode registry_example (store_returning [0xFF, 0x7F]) 0 1 0
      ⟨0x06, .type_temperature, "cpu"⟩ 0xFF 0x7F (by decide)
      (channel_at_slots_ok 16 _ 1 _ rfl) rfl rfl (by decide) (by decide)
    simpa using h
  · have h := read_temperature_decode registry_example (store_returning [0x00, 0x80]) 0 1 0
      ⟨0x06, .type_temperature, "cpu"⟩ 0x00 0x80 (by decide)
      (channel_at_slots_ok 16 _ 1 _ rfl) rfl rfl (by decide) (by decide)
    simpa using h

/-- C4: when a voltage read reaches the register store and the store returns the
three bytes `b0, b1, b2`, the call returns 0 after exactly that one bulk read and
stores `b0 + (b1 << 8) + (b2 << 16)`, with no sign adjustment. -/
theorem read_voltage_decode (hwmon : gsc_hwmon_data) (map : regmap) (attr : Nat)
    (channel val : Int) (ch : gsc_hwmon_channel) (b0 b1 b2 : Nat)
    (hcap : channel ≤ 16)
    (hslot : channel_at hwmon.in_ch channel = .ok ch)
    (hret : (map.bulk_read (ch.reg % 256) 3).ret = 0)
    (hdata : (map.bulk_read (ch.reg % 256) 3).data = [b0, b1, b2])
    (h0 : b0 < 256) (h1 : b1 < 256) (h2 : b2 < 256) :
    gsc_hwmon_read hwmon map .hwmon_in attr channel val =
      .ok { ret := 0
            val := ((b0 + (b1 <<< 8) + (b2 <<< 16) : Nat) : Int)
            bus := [.bulk_read (ch.reg % 256) 3] } := by
  have hle : ¬ (channel > (GSC_HWMON_MAX_IN_CH : Nat)) := by
    simp only [GSC_HWMON_MAX_IN_CH]; omega
  have e : b0 + (b1 <<< 8) + (b2 <<< 16) = b0 + 256 * b1 + 65536 * b2 := by
    rw [Nat.shiftLeft_eq, Nat.shiftLeft_eq]; omega
  simp [gsc_hwmon_read, hle, hslot, read_reg_eq, hret, hdata,
    fill_buf_three b0 b1 b2 h0 h1 h2, decode_buf, assemble_three b0 b1 b2 h0 h1, e]

/-- C4 at the bytes `[0x01, 0x02, 0x03]`, which decode to `0x030201`. -/
theorem read_voltage_decode_witness :
    gsc_hwmon_read registry_example (store_returning [0x01, 0x02, 0x03]) .hwmon_in 0 0 0 =
      .ok { ret := 0, val := 0x030201, bus := [.bulk_read 0x02 3] } := by
  have h := read_voltage_decode registry_example (store_returning [0x01, 0x02, 0x03]) 0 0 0
    ⟨0x02, .type_voltage, "vdd_3p3"⟩ 0x01 0x02 0x03 (by decide)
    (channel_at_slots_ok 16 _ 0 _ rfl) rfl rfl (by decide) (by decide) (by decide)
  simpa using h

/-- C5: round trip of the fan codec. For every `long` value `val`, negative or
above `0xFFFF` included, the two bytes that `gsc_hwmon_write` puts on the bus are
bytes, and the decoding of `gsc_hwmon_read` for a fan (2 bytes, no sign correction)
turns them, as the store hands them back, into `val mod 2^16`. -/
theorem fan_codec_round_trip (val : Int) :
    (write_buf val).length = 2 ∧ (∀ b ∈ write_buf val, b < 256) ∧
      decode_buf .hwmon_fan (fill_buf (write_buf val) 2) 2 = val % 2 ^ 16 := by
  have hb0 : (val % 256).toNat < 256 := by omega
  have hb1 : (val / 256 % 256).toNat < 256 := by omega
  rw [write_buf_eq]
  refine ⟨rfl, ?_, ?_⟩
  · intro b hb
    simp only [List.mem_cons, List.mem_singleton, List.not_mem_nil, or_false] at hb
    rcases hb with rfl | rfl <;> assumption
  · rw [fill_buf_two _ _ hb0 hb1]
    simp only [decode_buf, assemble_two _ _ hb0, reduceCtorEq, false_and, if_false]
    omega

/-- C6: on a successfully constructed registry, writing `val` to fan channel `i`,
with `i` below the number of fan descriptors, issues exactly one bulk write, of the
two bytes `val & 0xFF` and `(val >> 8) & 0xFF`, at the address of the `i`-th fan
descriptor, and returns the register store's result for that write. -/
theorem write_configured_fan (k : gsc_hwmon_consts) (channels : List gsc_hwmon_channel)
    (hwmon : gsc_hwmon_data) (map : regmap) (attr i : Nat) (val : Int)
    (hprobe : gsc_hwmon_probe k channels = .ok hwmon)
    (hi : i < (of_kind .type_fan channels).length) :
    gsc_hwmon_write hwmon map .hwmon_fan attr (i : Int) val =
      .ok { ret := map.bulk_write (of_kind .type_fan channels)[i].reg
              [(Int.land val 0xFF).toNat, (Int.land (Int.shiftRight val 8) 0xFF).toNat]
            bus := [.bulk_write (of_kind .type_fan channels)[i].reg
              [(Int.land val 0xFF).toNat, (Int.land (Int.shiftRight val 8) 0xFF).toNat]] } := by
  obtain ⟨-, -, -, ⟨hF, hFs⟩⟩ := gsc_hwmon_probe_ok k channels hwmon hprobe
  have hget : (of_kind .type_fan channels)[i]? = some (of_kind .type_fan channels)[i] :=
    List.getElem?_eq_getElem hi
  have hne : ¬ ((i : Int) = (GSC_HWMON_MAX_FAN_CH : Nat)) := by omega
  have hbuf : write_buf val =
      [(Int.land val 0xFF).toNat, (Int.land (Int.shiftRight val 8) 0xFF).toNat] := by
    have e : Int.shiftRight val 8 = val / 256 := by
      have := Int.shiftRight_eq_div_pow val 8
      simpa using this
    have h0 : (val % 256).toNat < 256 := by omega
    have h1 : (val / 256 % 256).toNat < 256 := by omega
    simp only [write_buf, land_255, e, Nat.mod_eq_of_lt h0, Nat.mod_eq_of_lt h1]
  simp only [gsc_hwmon_write, hne, if_false, hFs, channel_at_slots_ok _ _ _ _ hget, hbuf]

/-- C6 on the example registry: writing `0x1234` to fan channel 0 is one bulk write
of `[0x34, 0x12]` at address `0x2c`, and the store's result 0 is returned. -/
theorem write_configured_fan_witness :
    gsc_hwmon_write registry_example (store_returning []) .hwmon_fan 0 0 0x1234 =
      .ok { ret := 0, bus := [.bulk_write 0x2c [0x34, 0x12]] } := by
  have h := write_configured_fan consts_example channels_example registry_example
    (store_returning []) 0 0 0x1234 probe_example (by decide)
  have e : (of_kind .type_fan channels_example)[0] = ⟨0x2c, .type_fan, "fan0"⟩ := rfl
  rw [e] at h
  exact h.trans rfl

/-! ## Unsupported requests -/

/-- C7, counterexample: on the example registry, a write to fan channel 0 with
attribute 1, which is not `hwmon_fan_input` (0 in `consts_example`), is not
refused: it puts `[0x34, 0x12]` on the bus at `0x2c` and returns the store's 0. -/
theorem write_fan_other_attribute_counterexample :
    gsc_hwmon_probe consts_example channels_example = .ok registry_example ∧
      (1 : Nat) ≠ consts_example.hwmon_fan_input ∧
      gsc_hwmon_write registry_example (store_returning []) .hwmon_fan 1 0 0x1234 =
        .ok { ret := 0, bus := [.bulk_write 0x2c [0x34, 0x12]] } ∧
      gsc_hwmon_write registry_example (store_returning []) .hwmon_fan 1 0 0x1234 ≠
        .ok { ret := -EOPNOTSUPP, bus := [] } := by
  have h : gsc_hwmon_write registry_example (store_returning []) .hwmon_fan 1 0 0x1234 =
      .ok { ret := 0, bus := [.bulk_write 0x2c [0x34, 0x12]] } := rfl
  refine ⟨rfl, by decide, h, ?_⟩
  rw [h]
  simp [EOPNOTSUPP]

/-- C7, amended: for every kind other than fan, `gsc_hwmon_write` returns
`-EOPNOTSUPP` and issues no bulk write, whatever the attribute and the channel
index; for fan it does not look at the attribute, a write with any attribute being
the write with `hwmon_fan_input`. -/
theorem write_by_kind (k : gsc_hwmon_consts) (hwmon : gsc_hwmon_data) (map : regmap)
    (type : hwmon_sensor_types) (attr : Nat) (channel val : Int) :
    gsc_hwmon_write hwmon map type attr channel val =
      if type = .hwmon_fan then
        gsc_hwmon_write hwmon map .hwmon_fan k.hwmon_fan_input channel val
      else .ok { ret := -EOPNOTSUPP, bus := [] } := by
  cases type <;> simp [gsc_hwmon_write]

/-- C8, counterexample: the example registry has two temperature channels and one
fan channel, yet reading or naming temperature channel 2 and writing fan channel 1
pass the bounds check and dereference the `NULL` slot instead of returning
`-EOPNOTSUPP`. -/
theorem unconfigured_index_counterexample :
    gsc_hwmon_probe consts_example channels_example = .ok registry_example ∧
      (of_kind .type_temperature channels_example).length ≤ 2 ∧
      (of_kind .type_fan channels_example).length ≤ 1 ∧
      gsc_hwmon_read registry_example (store_returning [0x05, 0x00]) .hwmon_temp 0 2 0 =
        .error .null_deref ∧
      gsc_hwmon_read_string registry_example .hwmon_temp 0 2 "" = .error .null_deref ∧
      gsc_hwmon_write registry_example (store_returning []) .hwmon_fan 0 1 0 =
        .error .null_deref := by
  refine ⟨rfl, by decide, by decide, rfl, rfl, rfl⟩

/-- C8, amended: on every registry, for each kind K among temperature, voltage and
fan and every channel index above the capacity of K (16, 16 and 6), `gsc_hwmon_read`
and `gsc_hwmon_read_string` return `-EOPNOTSUPP` without reading a per-kind array
slot, without bus access and without touching the caller's output; and
`gsc_hwmon_write` for fan does so at the index 6, the fan capacity. -/
theorem above_capacity_unsupported (hwmon : gsc_hwmon_data) (map : regmap)
    (type : hwmon_sensor_types) (cap : Nat) (attr : Nat) (channel val : Int) (buf : String)
    (hkind : (type, cap) ∈
      [(hwmon_sensor_types.hwmon_temp, 16), (hwmon_sensor_types.hwmon_in, 16),
       (hwmon_sensor_types.hwmon_fan, 6)])
    (habove : channel > cap) :
    gsc_hwmon_read hwmon map type attr channel val =
        .ok { ret := -EOPNOTSUPP, val := val, bus := [] } ∧
      gsc_hwmon_read_string hwmon type attr channel buf =
        .ok { ret := -EOPNOTSUPP, buf := buf, bus := [] } ∧
      gsc_hwmon_write hwmon map .hwmon_fan attr 6 val =
        .ok { ret := -EOPNOTSUPP, bus := [] } := by
  simp only [List.mem_cons, Prod.mk.injEq, List.mem_singleton, List.not_mem_nil,
    or_false] at hkind
  rcases hkind with ⟨rfl, rfl⟩ | ⟨rfl, rfl⟩ | ⟨rfl, rfl⟩
  · have h : channel > (GSC_HWMON_MAX_TEMP_CH : Nat) := by
      simp only [GSC_HWMON_MAX_TEMP_CH]; omega
    exact ⟨by simp only [gsc_hwmon_read, h, if_true],
      by simp only [gsc_hwmon_read_string, h, if_true], rfl⟩
  · have h : channel > (GSC_HWMON_MAX_IN_CH : Nat) := by
      simp only [GSC_HWMON_MAX_IN_CH]; omega
    exact ⟨by simp only [gsc_hwmon_read, h, if_true],
      by simp only [gsc_hwmon_read_string, h, if_true], rfl⟩
  · have h : channel > (GSC_HWMON_MAX_FAN_CH : Nat) := by
      simp only [GSC_HWMON_MAX_FAN_CH]; omega
    exact ⟨by simp only [gsc_hwmon_read, h, if_true],
      by simp only [gsc_hwmon_read_string, h, if_true], rfl⟩

/-- C8, amended, at temperature channel 17 of a registry without any array slot:
the three calls are refused, so none of them read a slot. -/
theorem above_capacity_unsupported_witness :
    gsc_hwmon_read ⟨[], [], [], [], [], []⟩ (store_failing (-5)) .hwmon_temp 0 17 42 =
        .ok { ret := -EOPNOTSUPP, val := 42, bus := [] } ∧
      gsc_hwmon_read_string ⟨[], [], [], [], [], []⟩ .hwmon_temp 0 17 "before" =
        .ok { ret := -EOPNOTSUPP, buf := "before", bus := [] } ∧
      gsc_hwmon_write ⟨[], [], [], [], [], []⟩ (store_failing (-5)) .hwmon_fan 0 6 42 =
        .ok { ret := -EOPNOTSUPP, bus := [] } :=
  above_capacity_unsupported ⟨[], [], [], [], [], []⟩ (store_failing (-5)) .hwmon_temp 16 0
    17 42 "before" (by simp) (by decide)

/-- C9: what the code does at the index equal to the capacity. On the example
registry `gsc_hwmon_read` and `gsc_hwmon_read_string` accept channel 16 for
temperature and voltage and channel 6 for fan, and index the 16-slot (6-slot) array
one past its end; the first index they refuse is 17 (7). -/
theorem read_at_capacity_out_of_bounds :
    gsc_hwmon_probe consts_example channels_example = .ok registry_example ∧
      registry_example.temp_ch.length = 16 ∧ registry_example.in_ch.length = 16 ∧
      registry_example.fan_ch.length = 6 ∧
      gsc_hwmon_read registry_example (store_returning [0x05, 0x00]) .hwmon_temp 0 16 0 =
        .error .out_of_bounds ∧
      gsc_hwmon_read registry_example (store_returning [0x05, 0x00]) .hwmon_in 0 16 0 =
        .error .out_of_bounds ∧
      gsc_hwmon_read registry_example (store_returning [0x05, 0x00]) .hwmon_fan 0 6 0 =
        .error .out_of_bounds ∧
      gsc_hwmon_read_string registry_example .hwmon_temp 0 16 "" = .error .out_of_bounds ∧
      gsc_hwmon_read_string registry_example .hwmon_in 0 16 "" = .error .out_of_bounds ∧
      gsc_hwmon_read_string registry_example .hwmon_fan 0 6 "" = .error .out_of_bounds ∧
      gsc_hwmon_read registry_example (store_returning [0x05, 0x00]) .hwmon_temp 0 17 0 =
        .ok { ret := -EOPNOTSUPP, val := 0, bus := [] } ∧
      gsc_hwmon_write registry_example (store_returning []) .hwmon_fan 0 6 0 =
        .ok { ret := -EOPNOTSUPP, bus := [] } := by
  refine ⟨rfl, rfl, rfl, rfl, rfl, rfl, rfl, rfl, rfl, rfl, rfl, rfl⟩

/-- C10: what the code does for a kind outside temperature, voltage and fan. On
every registry `gsc_hwmon_read` and `gsc_hwmon_write` return `-EOPNOTSUPP` and
`gsc_hwmon_read_string` returns `-ENOTSUPP`, a different errno; none of the three
accesses the bus or changes the caller's output. -/
theorem other_kind_errno (hwmon : gsc_hwmon_data) (map : regmap) (raw attr : Nat)
    (channel val : Int) (buf : String) :
    gsc_hwmon_read hwmon map (.other raw) attr channel val =
        .ok { ret := -EOPNOTSUPP, val := val, bus := [] } ∧
      gsc_hwmon_write hwmon map (.other raw) attr channel val =
        .ok { ret := -EOPNOTSUPP, bus := [] } ∧
      gsc_hwmon_read_string hwmon (.other raw) attr channel buf =
        .ok { ret := -ENOTSUPP, buf := buf, bus := [] } ∧
      gsc_hwmon_read_string hwmon (.other raw) attr channel buf ≠
        .ok { ret := -EOPNOTSUPP, buf := buf, bus := [] } := by
  refine ⟨rfl, rfl, rfl, ?_⟩
  simp [gsc_hwmon_read_string, ENOTSUPP, EOPNOTSUPP]

/-! ## Visibility -/

/-- C11, counterexample: the example registry has two temperature, one voltage and
one fan channel, yet `gsc_hwmon_is_visible` answers `S_IRUGO` (and
`S_IRUGO | S_IWUSR` for the fan input), not 0, at the indices 2, 1 and 1 that lie
at the configured counts, and at an index beyond every capacity. -/
theorem is_visible_unconfigured_counterexample :
    gsc_hwmon_probe consts_example channels_example = .ok registry_example ∧
      (of_kind .type_temperature channels_example).length ≤ 2 ∧
      (of_kind .type_voltage channels_example).length ≤ 1 ∧
      (of_kind .type_fan channels_example).length ≤ 1 ∧
      gsc_hwmon_is_visible consts_example registry_example .hwmon_temp 0 2 = 0o444 ∧
      gsc_hwmon_is_visible consts_example registry_example .hwmon_in 0 1 = 0o444 ∧
      gsc_hwmon_is_visible consts_example registry_example .hwmon_fan 0 1 = 0o644 ∧
      gsc_hwmon_is_visible consts_example registry_example .hwmon_temp 0 100 = 0o444 := by
  refine ⟨rfl, by decide, by decide, by decide, rfl, rfl, rfl, rfl⟩

/-- C11, amended: `gsc_hwmon_is_visible` looks neither at the channel index nor at
the registry, so an index at or above the configured count gets the mode of a
configured channel; the mode is 0, "not visible", exactly for the kinds outside
temperature, voltage and fan. -/
theorem is_visible_ignores_channel (k : gsc_hwmon_consts) (hwmon hwmon2 : gsc_hwmon_data)
    (type : hwmon_sensor_types) (attr : Nat) (ch ch2 : Int) :
    gsc_hwmon_is_visible k hwmon type attr ch = gsc_hwmon_is_visible k hwmon2 type attr ch2 ∧
      (gsc_hwmon_is_visible k hwmon type attr ch = 0 ↔ ∃ raw, type = .other raw) := by
  refine ⟨rfl, ?_⟩
  cases type with
  | hwmon_temp => simp [gsc_hwmon_is_visible, S_IRUGO]
  | hwmon_in => simp [gsc_hwmon_is_visible, S_IRUGO]
  | hwmon_fan =>
    by_cases h : attr = k.hwmon_fan_input
    · simp only [gsc_hwmon_is_visible, h, if_true, S_IRUGO, S_IWUSR]
      simp
    · simp [gsc_hwmon_is_visible, h, S_IRUGO]
  | other raw => simp [gsc_hwmon_is_visible]

/-- C12: the permission policy of `gsc_hwmon_is_visible`. For temperature and
voltage every attribute gets `S_IRUGO`, which has no write bit; for fan the
attribute `hwmon_fan_input` gets `S_IRUGO | S_IWUSR`, which has the owner write bit,
and every other attribute gets `S_IRUGO`; for any other kind the mode is 0. -/
theorem is_visible_policy (k : gsc_hwmon_consts) (hwmon : gsc_hwmon_data) (attr raw : Nat)
    (ch : Int) :
    gsc_hwmon_is_visible k hwmon .hwmon_temp attr ch = S_IRUGO ∧
      gsc_hwmon_is_visible k hwmon .hwmon_in attr ch = S_IRUGO ∧
      gsc_hwmon_is_visible k hwmon .hwmon_fan attr ch =
        (if attr = k.hwmon_fan_input then S_IRUGO ||| S_IWUSR else S_IRUGO) ∧
      gsc_hwmon_is_visible k hwmon (.other raw) attr ch = 0 ∧
      gsc_hwmon_is_visible k hwmon .hwmon_temp attr ch &&& S_IWUGO = 0 ∧
      gsc_hwmon_is_visible k hwmon .hwmon_in attr ch &&& S_IWUGO = 0 ∧
      (S_IRUGO ||| S_IWUSR) &&& S_IWUGO = S_IWUSR ∧ S_IWUSR ≠ 0 := by
  refine ⟨rfl, rfl, rfl, rfl, ?_, ?_, ?_, ?_⟩
  · simp only [gsc_hwmon_is_visible]; decide
  · simp only [gsc_hwmon_is_visible]; decide
  · decide
  · decide

/-! ## Failing construction -/

theorem probe_step_error (k : gsc_hwmon_consts) (st : probe_state)
    (ch : gsc_hwmon_channel) (e : Int) (h : probe_step k st ch = .error e) :
    e = -EINVAL := by
  unfold probe_step at h
  by_cases hreg : ch.reg > k.GSC_HWMON_MAX_REG
  · simp only [hreg, if_true, Except.error.injEq] at h
    exact h.symm
  · simp only [hreg, if_false] at h
    cases hty : ch.type with
    | type_temperature =>
      simp only [hty] at h
      by_cases hfull : st.i_temp = GSC_HWMON_MAX_TEMP_CH
      · simp only [hfull, if_true, Except.error.injEq] at h
        exact h.symm
      · simp [hfull] at h
    | type_voltage =>
      simp only [hty] at h
      by_cases hfull : st.i_in = GSC_HWMON_MAX_IN_CH
      · simp only [hfull, if_true, Except.error.injEq] at h
        exact h.symm
      · simp [hfull] at h
    | type_fan =>
      simp only [hty] at h
      by_cases hfull : st.i_fan = GSC_HWMON_MAX_FAN_CH
      · simp only [hfull, if_true, Except.error.injEq] at h
        exact h.symm
      · simp [hfull] at h
    | unrecognized raw =>
      simp only [hty, Except.error.injEq] at h
      exact h.symm

theorem probe_loop_error (k : gsc_hwmon_consts) (chs : List gsc_hwmon_channel) :
    ∀ (st : probe_state) (e : Int), probe_loop k chs st = .error e → e = -EINVAL := by
  induction chs with
  | nil =>
    intro st e h
    simp [probe_loop] at h
  | cons ch rest ih =>
    intro st e h
    simp only [probe_loop] at h
    cases hstep : probe_step k st ch with
    | error e1 =>
      simp only [hstep, Except.error.injEq] at h
      subst h
      exact probe_step_error k st ch e1 hstep
    | ok st2 =>
      simp only [hstep] at h
      exact ih st2 e h

/-- Construction fails as soon as it cannot end with a registry, and then with
`-EINVAL`, the only error of the classification loop. -/
theorem gsc_hwmon_probe_fails (k : gsc_hwmon_consts) (channels : List gsc_hwmon_channel)
    (h : ∀ hwmon, gsc_hwmon_probe k channels ≠ .ok hwmon) :
    gsc_hwmon_probe k channels = .error (-EINVAL) := by
  cases hp : gsc_hwmon_probe k channels with
  | ok hwmon => exact absurd hp (h hwmon)
  | error e =>
    have he : e = -EINVAL := by
      unfold gsc_hwmon_probe at hp
      cases hloop : probe_loop k channels probe_init with
      | error e1 =>
        simp only [hloop, Except.error.injEq] at hp
        subst hp
        exact probe_loop_error k channels probe_init e1 hloop
      | ok st => simp [hloop] at hp
    rw [he]

theorem gsc_hwmon_probe_device_fails (k : gsc_hwmon_consts)
    (register : gsc_hwmon_data → Int) (channels : List gsc_hwmon_channel)
    (h : gsc_hwmon_probe k channels = .error (-EINVAL)) :
    gsc_hwmon_probe_device k register channels = { ret := -EINVAL, registered := [] } := by
  simp only [gsc_hwmon_probe_device, h]

/-- C13: a descriptor list with more than 16 temperature entries, or more than 16
voltage entries, or more than 6 fan entries makes construction fail with `-EINVAL`:
no registry results, `gsc_hwmon_probe` returns `-EINVAL`, and nothing is registered
with the host framework. -/
theorem probe_too_many_channels (k : gsc_hwmon_consts) (register : gsc_hwmon_data → Int)
    (channels : List gsc_hwmon_channel)
    (hmany : (of_kind .type_temperature channels).length > 16 ∨
      (of_kind .type_voltage channels).length > 16 ∨
      (of_kind .type_fan channels).length > 6) :
    gsc_hwmon_probe k channels = .error (-EINVAL) ∧
      gsc_hwmon_probe_device k register channels = { ret := -EINVAL, registered := [] } := by
  have hfail : gsc_hwmon_probe k channels = .error (-EINVAL) := by
    apply gsc_hwmon_probe_fails
    intro hwmon hok
    obtain ⟨-, ⟨hT, -⟩, ⟨hV, -⟩, ⟨hF, -⟩⟩ := gsc_hwmon_probe_ok k channels hwmon hok
    simp only [GSC_HWMON_MAX_TEMP_CH, GSC_HWMON_MAX_IN_CH, GSC_HWMON_MAX_FAN_CH] at hT hV hF
    omega
  exact ⟨hfail, gsc_hwmon_probe_device_fails k register channels hfail⟩

/-- C13 at a list of seven fan descriptors, registration being ready to succeed. -/
theorem probe_too_many_channels_witness :
    gsc_hwmon_probe consts_example (List.replicate 7 ⟨0x2c, .type_fan, "fan"⟩) =
        .error (-EINVAL) ∧
      gsc_hwmon_probe_device consts_example (fun _ => 0)
          (List.replicate 7 ⟨0x2c, .type_fan, "fan"⟩) =
        { ret := -EINVAL, registered := [] } :=
  probe_too_many_channels consts_example (fun _ => 0)
    (List.replicate 7 ⟨0x2c, .type_fan, "fan"⟩) (by decide)

/-- C14: a descriptor list that holds, at any position and of any kind, a descriptor
whose address is greater than `GSC_HWMON_MAX_REG` makes construction fail with
`-EINVAL`: no registry results and nothing is registered. -/
theorem probe_invalid_address (k : gsc_hwmon_consts) (register : gsc_hwmon_data → Int)
    (channels : List gsc_hwmon_channel) (ch : gsc_hwmon_channel)
    (hmem : ch ∈ channels) (hreg : ch.reg > k.GSC_HWMON_MAX_REG) :
    gsc_hwmon_probe k channels = .error (-EINVAL) ∧
      gsc_hwmon_probe_device k register channels = { ret := -EINVAL, registered := [] } := by
  have hfail : gsc_hwmon_probe k channels = .error (-EINVAL) := by
    apply gsc_hwmon_probe_fails
    intro hwmon hok
    obtain ⟨hall, -⟩ := gsc_hwmon_probe_ok k channels hwmon hok
    have := (hall ch hmem).1
    omega
  exact ⟨hfail, gsc_hwmon_probe_device_fails k register channels hfail⟩

/-- C14 at the example descriptors followed by a voltage descriptor at address
`0x100`, above the `0xff` of `consts_example`. -/
theorem probe_invalid_address_witness :
    gsc_hwmon_probe consts_example (channels_example ++ [⟨0x100, .type_voltage, "vin"⟩]) =
        .error (-EINVAL) ∧
      gsc_hwmon_probe_device consts_example (fun _ => 0)
          (channels_example ++ [⟨0x100, .type_voltage, "vin"⟩]) =
        { ret := -EINVAL, registered := [] } :=
  probe_invalid_address consts_example (fun _ => 0)
    (channels_example ++ [⟨0x100, .type_voltage, "vin"⟩]) ⟨0x100, .type_voltage, "vin"⟩
    (by simp) (by decide)

/-- C15: a descriptor list that holds a descriptor whose kind is none of temperature,
voltage and fan makes construction fail with `-EINVAL`: no registry results and
nothing is registered. -/
theorem probe_invalid_kind (k : gsc_hwmon_consts) (register : gsc_hwmon_data → Int)
    (channels : List gsc_hwmon_channel) (ch : gsc_hwmon_channel)
    (hmem : ch ∈ channels) (hkind : ¬ recognized ch.type) :
    gsc_hwmon_probe k channels = .error (-EINVAL) ∧
      gsc_hwmon_probe_device k register channels = { ret := -EINVAL, registered := [] } := by
  have hfail : gsc_hwmon_probe k channels = .error (-EINVAL) := by
    apply gsc_hwmon_probe_fails
    intro hwmon hok
    obtain ⟨hall, -⟩ := gsc_hwmon_probe_ok k channels hwmon hok
    exact hkind (hall ch hmem).2
  exact ⟨hfail, gsc_hwmon_probe_device_fails k register channels hfail⟩

/-- C15 at a descriptor of the unrecognized kind 7 placed in front of the example
descriptors. -/
theorem probe_invalid_kind_witness :
    gsc_hwmon_probe consts_example (⟨0x03, .unrecognized 7, "pwm"⟩ :: channels_example) =
        .error (-EINVAL) ∧
      gsc_hwmon_probe_device consts_example (fun _ => 0)
          (⟨0x03, .unrecognized 7, "pwm"⟩ :: channels_example) =
        { ret := -EINVAL, registered := [] } :=
  probe_invalid_kind consts_example (fun _ => 0)
    (⟨0x03, .unrecognized 7, "pwm"⟩ :: channels_example) ⟨0x03, .unrecognized 7, "pwm"⟩
    (by simp) (by simp [recognized])

/-! ## Capability masks -/

theorem replicate_set_mask (n c m : Nat) :
    (List.replicate n m ++ List.replicate (c + 1) 0).set n m =
      List.replicate (n + 1) m ++ List.replicate c 0 := by
  induction n with
  | zero => simp [List.replicate_succ]
  | succ n ih =>
    have e : List.replicate (n + 1) m ++ List.replicate (c + 1) 0 =
        m :: (List.replicate n m ++ List.replicate (c + 1) 0) := by
      simp [List.replicate_succ]
    rw [e, List.set_cons_succ, ih]
    simp [List.replicate_succ]

theorem replicate_set_zero (n c m : Nat) :
    (List.replicate n m ++ List.replicate (c + 1) 0).set n 0 =
      List.replicate n m ++ List.replicate (c + 1) 0 := by
  induction n with
  | zero => simp [List.replicate_succ]
  | succ n ih =>
    have e : List.replicate (n + 1) m ++ List.replicate (c + 1) 0 =
        m :: (List.replicate n m ++ List.replicate (c + 1) 0) := by
      simp [List.replicate_succ]
    rw [e, List.set_cons_succ, ih]

theorem mask_entry_ne_zero (input label : Nat) (h0 : input ≠ 0) (h1 : input < 2 ^ 32) :
    mask_entry input label ≠ 0 := by
  obtain ⟨i, hi⟩ := Nat.ne_zero_implies_bit_true h0
  have hlt : i < 32 := by
    by_contra hc
    have hge : 2 ^ 32 ≤ 2 ^ i := Nat.pow_le_pow_right (by norm_num) (by omega)
    have := Nat.testBit_implies_ge hi
    omega
  intro hz
  have hbit : (mask_entry input label).testBit i = true := by
    unfold mask_entry
    rw [Nat.testBit_mod_two_pow, Nat.testBit_or, hi]
    simp [hlt]
  rw [hz] at hbit
  simp at hbit

theorem mask_terminated_of_eq (config : List Nat) (cap n mask : Nat) (hn : n ≤ cap)
    (hmask : mask ≠ 0)
    (h : config = List.replicate n mask ++ List.replicate (cap + 1 - n) 0) :
    mask_terminated config cap n mask := by
  subst h
  refine ⟨?_, ?_, hmask, ?_, ?_, ?_⟩
  · simp; omega
  · simp; omega
  · intro i hi
    rw [List.getElem?_append_left (by simpa using hi), List.getElem?_replicate]
    simp [hi]
  · rw [List.getElem?_append_right (by simp), List.getElem?_replicate]
    simp; omega
  · unfold mask_walk
    rw [List.takeWhile_append_of_pos, List.takeWhile_replicate]
    · simp
    · intro a ha
      rw [List.eq_of_mem_replicate ha]
      simpa using hmask

theorem config_set_mask (cap i m : Nat) (config : List Nat) (hi : i ≤ cap) (hne : i ≠ cap)
    (h : config = List.replicate i m ++ List.replicate (cap + 1 - i) 0) :
    i + 1 ≤ cap ∧
      config.set i m = List.replicate (i + 1) m ++ List.replicate (cap + 1 - (i + 1)) 0 := by
  obtain ⟨d, rfl⟩ := Nat.exists_eq_add_of_lt (lt_of_le_of_ne hi hne)
  have e1 : i + d + 1 + 1 - i = (d + 1) + 1 := by omega
  have e2 : i + d + 1 + 1 - (i + 1) = d + 1 := by omega
  refine ⟨by omega, ?_⟩
  rw [h, e1, e2, replicate_set_mask]

theorem config_set_zero (cap i m : Nat) (config : List Nat) (hi : i ≤ cap)
    (h : config = List.replicate i m ++ List.replicate (cap + 1 - i) 0) :
    config.set i 0 = config := by
  obtain ⟨d, rfl⟩ := Nat.exists_eq_add_of_le hi
  have e1 : i + d + 1 - i = d + 1 := by omega
  rw [h, e1, replicate_set_zero]

theorem config_inv_init (k : gsc_hwmon_consts) : config_inv k probe_init := by
  simp [config_inv, probe_init, hwmon_zero]

theorem config_inv_step (k : gsc_hwmon_consts) (st st1 : probe_state)
    (ch : gsc_hwmon_channel) (hinv : config_inv k st)
    (h : probe_step k st ch = .ok st1) : config_inv k st1 := by
  obtain ⟨⟨hT1, hT2⟩, ⟨hV1, hV2⟩, ⟨hF1, hF2⟩⟩ := hinv
  unfold probe_step at h
  by_cases hreg : ch.reg > k.GSC_HWMON_MAX_REG
  · simp [hreg] at h
  · simp only [hreg, if_false] at h
    cases hty : ch.type with
    | type_temperature =>
      simp only [hty] at h
      by_cases hfull : st.i_temp = GSC_HWMON_MAX_TEMP_CH
      · simp [hfull] at h
      · simp only [hfull, if_false, Except.ok.injEq] at h
        subst h
        exact ⟨config_set_mask _ _ _ _ hT1 hfull hT2, ⟨hV1, hV2⟩, ⟨hF1, hF2⟩⟩
    | type_voltage =>
      simp only [hty] at h
      by_cases hfull : st.i_in = GSC_HWMON_MAX_IN_CH
      · simp [hfull] at h
      · simp only [hfull, if_false, Except.ok.injEq] at h
        subst h
        exact ⟨⟨hT1, hT2⟩, config_set_mask _ _ _ _ hV1 hfull hV2, ⟨hF1, hF2⟩⟩
    | type_fan =>
      simp only [hty] at h
      by_cases hfull : st.i_fan = GSC_HWMON_MAX_FAN_CH
      · simp [hfull] at h
      · simp only [hfull, if_false, Except.ok.injEq] at h
        subst h
        exact ⟨⟨hT1, hT2⟩, ⟨hV1, hV2⟩, config_set_mask _ _ _ _ hF1 hfull hF2⟩
    | unrecognized raw =>
      simp [hty] at h

theorem config_inv_loop (k : gsc_hwmon_consts) (chs : List gsc_hwmon_channel) :
    ∀ (st st1 : probe_state), config_inv k st → probe_loop k chs st = .ok st1 →
      config_inv k st1 := by
  induction chs with
  | nil =>
    intro st st1 hinv h
    simp only [probe_loop, Except.ok.injEq] at h
    subst h
    exact hinv
  | cons ch rest ih =>
    intro st st1 hinv h
    simp only [probe_loop] at h
    cases hstep : probe_step k st ch with
    | error e => simp [hstep] at h
    | ok st2 =>
      simp only [hstep] at h
      exact ih st2 st1 (config_inv_step k st st2 ch hinv hstep) h

/-- C16: after a successful construction, for each kind K with `n` descriptors, the
mask list of K has capacity + 1 entries, holds `INPUT | LABEL`, a nonzero value, at
every index below `n` and 0 at the index `n`, which lies inside the list, and a walk
from index 0 until the first zero visits exactly `n` entries. The `INPUT` bits of
`linux/hwmon.h` are nonzero `u32` values. -/
theorem config_masks_terminated (k : gsc_hwmon_consts) (channels : List gsc_hwmon_channel)
    (hwmon : gsc_hwmon_data) (hprobe : gsc_hwmon_probe k channels = .ok hwmon)
    (hT : k.HWMON_T_INPUT ≠ 0 ∧ k.HWMON_T_INPUT < 2 ^ 32)
    (hI : k.HWMON_I_INPUT ≠ 0 ∧ k.HWMON_I_INPUT < 2 ^ 32)
    (hF : k.HWMON_F_INPUT ≠ 0 ∧ k.HWMON_F_INPUT < 2 ^ 32) :
    mask_terminated hwmon.temp_config 16 (of_kind .type_temperature channels).length
        (mask_entry k.HWMON_T_INPUT k.HWMON_T_LABEL) ∧
      mask_terminated hwmon.in_config 16 (of_kind .type_voltage channels).length
        (mask_entry k.HWMON_I_INPUT k.HWMON_I_LABEL) ∧
      mask_terminated hwmon.fan_config 6 (of_kind .type_fan channels).length
        (mask_entry k.HWMON_F_INPUT k.HWMON_F_LABEL) := by
  unfold gsc_hwmon_probe at hprobe
  cases hloop : probe_loop k channels probe_init with
  | error e => simp [hloop] at hprobe
  | ok st =>
    simp only [hloop, Except.ok.injEq] at hprobe
    subst hprobe
    obtain ⟨-, ⟨hT1, -, -⟩, ⟨hV1, -, -⟩, ⟨hF1, -, -⟩⟩ :=
      probe_loop_ok k channels probe_init st [] [] [] probe_inv_init hloop
    simp only [List.nil_append] at hT1 hV1 hF1
    obtain ⟨⟨cT1, cT2⟩, ⟨cV1, cV2⟩, ⟨cF1, cF2⟩⟩ :=
      config_inv_loop k channels probe_init st (config_inv_init k) hloop
    refine ⟨?_, ?_, ?_⟩
    · apply mask_terminated_of_eq _ _ _ _ (by rw [← hT1]; exact cT1)
        (mask_entry_ne_zero _ _ hT.1 hT.2)
      show st.hwmon.temp_config.set st.i_temp 0 = _
      rw [config_set_zero _ _ _ _ cT1 cT2, cT2, hT1]
      rfl
    · apply mask_terminated_of_eq _ _ _ _ (by rw [← hV1]; exact cV1)
        (mask_entry_ne_zero _ _ hI.1 hI.2)
      show st.hwmon.in_config.set st.i_in 0 = _
      rw [config_set_zero _ _ _ _ cV1 cV2, cV2, hV1]
      rfl
    · apply mask_terminated_of_eq _ _ _ _ (by rw [← hF1]; exact cF1)
        (mask_entry_ne_zero _ _ hF.1 hF.2)
      show st.hwmon.fan_config.set st.i_fan 0 = _
      rw [config_set_zero _ _ _ _ cF1 cF2, cF2, hF1]
      rfl

/-- C16 on the example registry: with two temperature descriptors the temperature
mask list is 5, 5 and then zeros, and a walk until the first zero visits 2 entries;
the voltage and fan lists hold one 5 each. -/
theorem config_masks_terminated_witness :
    mask_terminated registry_example.temp_config 16 2 5 ∧
      mask_terminated registry_example.in_config 16 1 5 ∧
      mask_terminated registry_example.fan_config 6 1 5 :=
  config_masks_terminated consts_example channels_example registry_example probe_example
    (by decide) (by decide) (by decide)

/-! ## Bus errors -/

/-- C17: on a successfully constructed registry, (1) when the bulk read for channel
`i` of kind K (`i` below the number of descriptors of kind K) fails with the bus
error `e`, `gsc_hwmon_read` returns `e`, has made that one bus access and no other,
and leaves `*val` as it was; and, independently, (2) `gsc_hwmon_write` on fan
channel `j` (`j` below the number of fan descriptors) returns whatever
`regmap_bulk_write` returned for its single write, a bus error `ew` included. -/
theorem bus_error_propagated :
    (∀ (k : gsc_hwmon_consts) (channels : List gsc_hwmon_channel) (hwmon : gsc_hwmon_data)
        (map : regmap) (type : hwmon_sensor_types) (kind : gsc_hwmon_type)
        (sz attr i : Nat) (val e : Int),
        gsc_hwmon_probe k channels = .ok hwmon →
        (type, kind, sz) ∈
          [(hwmon_sensor_types.hwmon_temp, gsc_hwmon_type.type_temperature, 2),
           (hwmon_sensor_types.hwmon_in, gsc_hwmon_type.type_voltage, 3),
           (hwmon_sensor_types.hwmon_fan, gsc_hwmon_type.type_fan, 2)] →
        ∀ (hi : i < (of_kind kind channels).length),
        (map.bulk_read ((of_kind kind channels)[i].reg % 256) sz).ret = e →
        e ≠ 0 →
        gsc_hwmon_read hwmon map type attr (i : Int) val =
          .ok { ret := e, val := val
                bus := [.bulk_read ((of_kind kind channels)[i].reg % 256) sz] }) ∧
      (∀ (k : gsc_hwmon_consts) (channels : List gsc_hwmon_channel) (hwmon : gsc_hwmon_data)
        (map : regmap) (attr j : Nat) (wval ew : Int),
        gsc_hwmon_probe k channels = .ok hwmon →
        ∀ (hj : j < (of_kind .type_fan channels).length),
        map.bulk_write (of_kind .type_fan channels)[j].reg (write_buf wval) = ew →
        gsc_hwmon_write hwmon map .hwmon_fan attr (j : Int) wval =
          .ok { ret := ew
                bus := [.bulk_write (of_kind .type_fan channels)[j].reg
                  (write_buf wval)] }) := by
  constructor
  · intro k channels hwmon map type kind sz attr i val e hprobe hkind hi hread he
    obtain ⟨-, ⟨hT, hTs⟩, ⟨hV, hVs⟩, ⟨hF, hFs⟩⟩ :=
      gsc_hwmon_probe_ok k channels hwmon hprobe
    have hget : (of_kind kind channels)[i]? = some (of_kind kind channels)[i] :=
      List.getElem?_eq_getElem hi
    simp only [List.mem_cons, Prod.mk.injEq, List.mem_singleton, List.not_mem_nil,
      or_false] at hkind
    rcases hkind with ⟨rfl, rfl, rfl⟩ | ⟨rfl, rfl, rfl⟩ | ⟨rfl, rfl, rfl⟩
    · have hle : ¬ ((i : Int) > (GSC_HWMON_MAX_TEMP_CH : Nat)) := by omega
      simp only [gsc_hwmon_read, hle, if_false, hTs,
        channel_at_slots_ok _ _ _ _ hget, read_reg_eq, hread, he]
    · have hle : ¬ ((i : Int) > (GSC_HWMON_MAX_IN_CH : Nat)) := by omega
      simp only [gsc_hwmon_read, hle, if_false, hVs,
        channel_at_slots_ok _ _ _ _ hget, read_reg_eq, hread, he]
    · have hle : ¬ ((i : Int) > (GSC_HWMON_MAX_FAN_CH : Nat)) := by omega
      simp only [gsc_hwmon_read, hle, if_false, hFs,
        channel_at_slots_ok _ _ _ _ hget, read_reg_eq, hread, he]
  · intro k channels hwmon map attr j wval ew hprobe hj hwrite
    obtain ⟨-, -, -, ⟨hF, hFs⟩⟩ := gsc_hwmon_probe_ok k channels hwmon hprobe
    have hgetj : (of_kind .type_fan channels)[j]? = some (of_kind .type_fan channels)[j] :=
      List.getElem?_eq_getElem hj
    have hnej : ¬ ((j : Int) = (GSC_HWMON_MAX_FAN_CH : Nat)) := by omega
    simp only [gsc_hwmon_write, hnej, if_false, hFs, channel_at_slots_ok _ _ _ _ hgetj,
      hwrite]

/-- C17 at two independent inputs. (1) The registry of the single descriptor `board`
(temperature, no fan channel) with a store whose every access fails with -5: the
temperature read returns -5 after one bulk read and leaves 42 in `*val`. (2) The
example registry with a store whose reads succeed and whose writes fail with -5:
the fan write returns -5 after one bulk write. -/
theorem bus_error_propagated_witness :
    (∃ hwmon,
        gsc_hwmon_probe consts_example [⟨0x01, .type_temperature, "board"⟩] = .ok hwmon ∧
        (of_kind .type_fan [⟨0x01, .type_temperature, "board"⟩]).length = 0 ∧
        gsc_hwmon_read hwmon (store_failing (-5)) .hwmon_temp 0 0 42 =
          .ok { ret := -5, val := 42, bus := [.bulk_read 0x01 2] }) ∧
      ((store_write_failing [0x05, 0x00] (-5)).bulk_read 0x06 2).ret = 0 ∧
      gsc_hwmon_write registry_example (store_write_failing [0x05, 0x00] (-5))
          .hwmon_fan 0 0 0x1234 =
        .ok { ret := -5, bus := [.bulk_write 0x2c [0x34, 0x12]] } := by
  refine ⟨⟨_, rfl, rfl, ?_⟩, rfl, ?_⟩
  · have h := bus_error_propagated.1 consts_example [⟨0x01, .type_temperature, "board"⟩] _
      (store_failing (-5)) .hwmon_temp .type_temperature 2 0 0 42 (-5)
      rfl (by simp) (by decide) rfl (by decide)
    exact h.trans rfl
  · have h := bus_error_propagated.2 consts_example channels_example registry_example
      (store_write_failing [0x05, 0x00] (-5)) 0 0 0x1234 (-5)
      probe_example (by decide) rfl
    exact h.trans rfl

/-! ## Temperature decoding -/

/-- C18, counterexample: when the store returns the bytes `[0x01, 0x80]` (raw
`0x8001`) for temperature channel 0 of the example registry, `gsc_hwmon_read`
stores -32766, which is not 32770. -/
theorem temperature_vector_counterexample :
    gsc_hwmon_read registry_example (store_returning [0x01, 0x80]) .hwmon_temp 0 0 0 =
        .ok { ret := 0, val := -32766, bus := [.bulk_read 0x01 2] } ∧
      gsc_hwmon_read registry_example (store_returning [0x01, 0x80]) .hwmon_temp 0 0 0 ≠
        .ok { ret := 0, val := 32770, bus := [.bulk_read 0x01 2] } := by
  have h : gsc_hwmon_read registry_example (store_returning [0x01, 0x80]) .hwmon_temp 0 0 0 =
      .ok { ret := 0, val := -32766, bus := [.bulk_read 0x01 2] } := rfl
  refine ⟨h, ?_⟩
  rw [h]
  simp

/-- C18, amended: the raw value `0x8001` (bytes `[0x01, 0x80]`) decodes to
`0x8001 - 0xFFFF = -32766`, while the raw value `0x8000` (bytes `[0x00, 0x80]`)
decodes to 32768. -/
theorem temperature_vector :
    raw_bytes 0x8001 = [0x01, 0x80] ∧ raw_bytes 0x8000 = [0x00, 0x80] ∧
      temp_decode 0x8001 = 0x8001 - 0xFFFF ∧ temp_decode 0x8001 = -32766 ∧
      temp_decode 0x8000 = 32768 := by
  refine ⟨rfl, rfl, rfl, rfl, rfl⟩

theorem temp_decode_eq (v : Nat) (hv : v < 0x10000) :
    temp_decode v = if v ≤ 0x8000 then (v : Int) else (v : Int) - 0xFFFF := by
  have h0 : v % 256 < 256 := Nat.mod_lt _ (by norm_num)
  have h1 : v / 256 % 256 < 256 := Nat.mod_lt _ (by norm_num)
  have hsum : v % 256 + 256 * (v / 256 % 256) = v := by omega
  unfold temp_decode raw_bytes
  rw [fill_buf_two _ _ h0 h1]
  simp only [decode_buf, assemble_two _ _ h0, hsum, true_and]
  by_cases hle : v ≤ 0x8000
  · have : ¬ ((v : Int) > 0x8000) := by omega
    simp only [this, hle, if_true, if_false]
  · have : (v : Int) > 0x8000 := by omega
    simp only [this, hle, if_true, if_false]

/-- C19: for every raw 16-bit value `v`, the temperature decoding equals the
standard 16-bit sign extension `s(v)` when `v ≤ 0x7FFF`, equals `s(v) + 1` when
`0x8001 ≤ v`, and is 32768 at `v = 0x8000`, where `s(v)` is -32768; the decoding is
not injective, the raw values `0xFFFF` and `0x0000` both decoding to 0. -/
theorem temperature_decode_vs_sign_extension (v : Nat) (hv : v < 0x10000) :
    (v ≤ 0x7FFF → temp_decode v = sign_extend16 v) ∧
      (0x8001 ≤ v → temp_decode v = sign_extend16 v + 1) ∧
      (v = 0x8000 → temp_decode v = 32768 ∧ sign_extend16 v = -32768) ∧
      (temp_decode 0xFFFF = 0 ∧ temp_decode 0x0000 = 0 ∧
        raw_bytes 0xFFFF ≠ raw_bytes 0x0000) := by
  rw [temp_decode_eq v hv]
  unfold sign_extend16
  refine ⟨?_, ?_, ?_, rfl, rfl, by decide⟩
  · intro h
    have h1 : v ≤ 0x8000 := by omega
    have h2 : v < 0x8000 := by omega
    simp only [h1, h2, if_true]
  · intro h
    have h1 : ¬ v ≤ 0x8000 := by omega
    have h2 : ¬ v < 0x8000 := by omega
    simp only [h1, h2, if_false]
    omega
  · intro h
    subst h
    simp

/-- C19 at the raw values `0xFFFF`, `0x7FFF` and `0x8000`: `0xFFFF` decodes to
`s(0xFFFF) + 1 = 0`, `0x7FFF` to `s(0x7FFF) = 32767`, and `0x8000` to 32768. -/
theorem temperature_decode_vs_sign_extension_witness :
    (temp_decode 0xFFFF = sign_extend16 0xFFFF + 1 ∧ sign_extend16 0xFFFF = -1) ∧
      (temp_decode 0x7FFF = sign_extend16 0x7FFF ∧ sign_extend16 0x7FFF = 32767) ∧
      (temp_decode 0x8000 = 32768 ∧ sign_extend16 0x8000 = -32768) :=
  ⟨⟨(temperature_decode_vs_sign_extension 0xFFFF (by decide)).2.1 (by decide), rfl⟩,
   ⟨(temperature_decode_vs_sign_extension 0x7FFF (by decide)).1 (by decide), rfl⟩,
   (temperature_decode_vs_sign_extension 0x8000 (by decide)).2.2.1 rfl⟩

/-! ## Range of the values read -/

theorem fill_buf_two_eq (data : List Nat) :
    fill_buf data 2 = [data.getD 0 0 % 256, data.getD 1 0 % 256] := by
  simp [fill_buf, List.range_succ]

theorem fill_buf_three_eq (data : List Nat) :
    fill_buf data 3 = [data.getD 0 0 % 256, data.getD 1 0 % 256, data.getD 2 0 % 256] := by
  simp [fill_buf, List.range_succ]

theorem fill_buf_getD_lt (data : List Nat) (sz i : Nat) :
    (fill_buf data sz).getD i 0 < 256 := by
  unfold fill_buf
  rw [List.getD_eq_getElem?_getD, List.getElem?_map]
  by_cases h : i < sz
  · rw [List.getElem?_range h]
    simp only [Option.map_some', Option.getD_some]
    exact Nat.mod_lt _ (by norm_num)
  · rw [List.getElem?_eq_none (by simpa using h)]
    simp

theorem decode_range_fan (data : List Nat) :
    0 ≤ decode_buf .hwmon_fan (fill_buf data 2) 2 ∧
      decode_buf .hwmon_fan (fill_buf data 2) 2 ≤ 65535 := by
  have h0 : data.getD 0 0 % 256 < 256 := Nat.mod_lt _ (by norm_num)
  have h1 : data.getD 1 0 % 256 < 256 := Nat.mod_lt _ (by norm_num)
  rw [fill_buf_two_eq]
  simp only [decode_buf, assemble_two _ _ h0, reduceCtorEq, false_and, if_false]
  omega

theorem decode_range_in (data : List Nat) :
    0 ≤ decode_buf .hwmon_in (fill_buf data 3) 3 ∧
      decode_buf .hwmon_in (fill_buf data 3) 3 ≤ 16777215 := by
  have h0 : data.getD 0 0 % 256 < 256 := Nat.mod_lt _ (by norm_num)
  have h1 : data.getD 1 0 % 256 < 256 := Nat.mod_lt _ (by norm_num)
  have h2 : data.getD 2 0 % 256 < 256 := Nat.mod_lt _ (by norm_num)
  rw [fill_buf_three_eq]
  simp only [decode_buf, assemble_three _ _ _ h0 h1, reduceCtorEq, false_and, if_false]
  omega

theorem decode_range_temp (data : List Nat) :
    -32766 ≤ decode_buf .hwmon_temp (fill_buf data 2) 2 ∧
      decode_buf .hwmon_temp (fill_buf data 2) 2 ≤ 32768 := by
  have h0 : data.getD 0 0 % 256 < 256 := Nat.mod_lt _ (by norm_num)
  have h1 : data.getD 1 0 % 256 < 256 := Nat.mod_lt _ (by norm_num)
  rw [fill_buf_two_eq]
  simp only [decode_buf, assemble_two _ _ h0, true_and]
  split <;> omega

theorem read_reg_val (map : regmap) (type : hwmon_sensor_types) (reg sz : Nat) (val : Int)
    (h0 : (read_reg map type reg sz val).ret = 0) :
    (read_reg map type reg sz val).val =
      decode_buf type (fill_buf (map.bulk_read reg sz).data sz) sz := by
  rw [read_reg_eq] at h0 ⊢
  simp only at h0 ⊢
  simp only [h0, if_true]

theorem shifted_byte_lt (data : List Nat) (sz i : Nat) (hsz : sz ≤ 3) (hi : i < sz) :
    (fill_buf data sz).getD i 0 <<< (8 * i) < 2 ^ 24 := by
  have hb := fill_buf_getD_lt data sz i
  rw [Nat.shiftLeft_eq]
  have hi3 : i < 3 := by omega
  interval_cases i <;> omega

/-- C20: whenever `gsc_hwmon_read` returns 0, the value it stored lies in
`[0, 65535]` for a fan, in `[0, 16777215]` for a voltage and in `[-32766, 32768]`
for a temperature, whatever bytes the register store returned; and every term
`buf[i] << (8*i)` of the assembly is below `2^24`, so neither the `int` terms nor
the value they are OR-ed into overflow. -/
theorem read_value_range (hwmon : gsc_hwmon_data) (map : regmap)
    (type : hwmon_sensor_types) (attr : Nat) (channel val : Int) (r : read_result)
    (h : gsc_hwmon_read hwmon map type attr channel val = .ok r) (h0 : r.ret = 0) :
    (type = .hwmon_fan → 0 ≤ r.val ∧ r.val ≤ 65535) ∧
      (type = .hwmon_in → 0 ≤ r.val ∧ r.val ≤ 16777215) ∧
      (type = .hwmon_temp → -32766 ≤ r.val ∧ r.val ≤ 32768) ∧
      (∀ (data : List Nat) (sz i : Nat), sz ≤ 3 → i < sz →
        (fill_buf data sz).getD i 0 <<< (8 * i) < 2 ^ 24) := by
  have hunsupp : ¬ ((-EOPNOTSUPP : Int) = 0) := by decide
  refine ⟨?_, ?_, ?_, shifted_byte_lt⟩
  · rintro rfl
    unfold gsc_hwmon_read at h
    by_cases hc : channel > (GSC_HWMON_MAX_FAN_CH : Nat)
    · simp only [hc, if_true, Except.ok.injEq] at h
      subst h
      exact absurd h0 hunsupp
    · simp only [hc, if_false] at h
      cases hs : channel_at hwmon.fan_ch channel with
      | error f => simp [hs] at h
      | ok ch =>
        simp only [hs, Except.ok.injEq] at h
        subst h
        rw [read_reg_val _ _ _ _ _ h0]
        exact decode_range_fan _
  · rintro rfl
    unfold gsc_hwmon_read at h
    by_cases hc : channel > (GSC_HWMON_MAX_IN_CH : Nat)
    · simp only [hc, if_true, Except.ok.injEq] at h
      subst h
      exact absurd h0 hunsupp
    · simp only [hc, if_false] at h
      cases hs : channel_at hwmon.in_ch channel with
      | error f => simp [hs] at h
      | ok ch =>
        simp only [hs, Except.ok.injEq] at h
        subst h
        rw [read_reg_val _ _ _ _ _ h0]
        exact decode_range_in _
  · rintro rfl
    unfold gsc_hwmon_read at h
    by_cases hc : channel > (GSC_HWMON_MAX_TEMP_CH : Nat)
    · simp only [hc, if_true, Except.ok.injEq] at h
      subst h
      exact absurd h0 hunsupp
    · simp only [hc, if_false] at h
      cases hs : channel_at hwmon.temp_ch channel with
      | error f => simp [hs] at h
      | ok ch =>
        simp only [hs, Except.ok.injEq] at h
        subst h
        rw [read_reg_val _ _ _ _ _ h0]
        exact decode_range_temp _

/-- C20 at the extreme readings of the example registry: the bytes `[0x01, 0x80]`
give the temperature -32766, `[0x00, 0x80]` gives 32768, and `[0xFF, 0xFF, 0xFF]`
gives the voltage 16777215 and the fan value 65535. -/
theorem read_value_range_witness :
    gsc_hwmon_read registry_example (store_returning [0x01, 0x80]) .hwmon_temp 0 0 0 =
        .ok { ret := 0, val := -32766, bus := [.bulk_read 0x01 2] } ∧
      (-32766 : Int) ≤ -32766 ∧ (-32766 : Int) ≤ 32768 ∧
      gsc_hwmon_read registry_example (store_returning [0xFF, 0xFF, 0xFF]) .hwmon_in 0 0 0 =
        .ok { ret := 0, val := 16777215, bus := [.bulk_read 0x02 3] } ∧
      gsc_hwmon_read registry_example (store_returning [0xFF, 0xFF, 0xFF]) .hwmon_fan 0 0 0 =
        .ok { ret := 0, val := 65535, bus := [.bulk_read 0x2c 2] } :=
  ⟨rfl,
   ((read_value_range registry_example (store_returning [0x01, 0x80]) .hwmon_temp 0 0 0
      { ret := 0, val := -32766, bus := [.bulk_read 0x01 2] } rfl rfl).2.2.1 rfl).1,
   ((read_value_range registry_example (store_returning [0x01, 0x80]) .hwmon_temp 0 0 0
      { ret := 0, val := -32766, bus := [.bulk_read 0x01 2] } rfl rfl).2.2.1 rfl).2,
   rfl, rfl⟩

end GscHwmon
